import Mathlib

/-!
Shallow embedding of the statistical performance-analysis engine
(`src/compare.js`, `src/validation.js`, and the metrics collector in
`src/unnamed/part_004`) of the `weblab` repository, together with proofs
about the claims on its specification.

Modelling conventions:
* JavaScript numbers are modelled as exact rationals extended with the
  IEEE special values `NaN`, `+Infinity` and `-Infinity` (`JSNum`).
  Record fields produced upstream (means, stddevs, counts, ...) are plain
  rationals; the special values only arise inside the computations
  (division by zero, `0/0`), exactly as in the source.
* `Math.sqrt` appears in the source only in
  `tStatistic = (mean1-mean2)/Math.sqrt(var1/n1+var2/n2)`, and that value
  is consumed solely through the comparisons `|t| < c` (c ∈ {1,2,3,4}) of
  `calculatePValue`.  Since `sqrt` is monotone and both sides are
  nonnegative there, `|t|` is embedded by its square (`AbsT`), and
  `|t| < c` becomes `t² < c²`.  This keeps every definition executable.
* `parseFloat(x.toFixed(d))` is modelled as rounding half-up at `d`
  decimal digits (the ECMAScript `toFixed` rule: nearest, ties towards the
  larger value), leaving `NaN`/`±Infinity` unchanged.
-/

/-- A JavaScript number: a finite rational or one of the IEEE special
values produced by the arithmetic in `src/compare.js`. -/
inductive JSNum where
  | nan : JSNum
  | inf : JSNum
  | ninf : JSNum
  | fin : ℚ → JSNum
deriving DecidableEq, Repr

/-- JavaScript `isNaN` on a `JSNum`. -/
def jsIsNaN : JSNum → Bool
  | .nan => true
  | _ => false

/-- JavaScript `+` on numbers (IEEE rules for the special values). -/
def jsAdd : JSNum → JSNum → JSNum
  | .nan, _ => .nan
  | _, .nan => .nan
  | .inf, .ninf => .nan
  | .ninf, .inf => .nan
  | .inf, _ => .inf
  | _, .inf => .inf
  | .ninf, _ => .ninf
  | _, .ninf => .ninf
  | .fin a, .fin b => .fin (a + b)

/-- JavaScript `/` on numbers.  `x/0` is `±Infinity` by the sign of `x`,
`0/0` is `NaN`, `Infinity/Infinity` is `NaN`, `finite/Infinity` is `0`.
(Negative zero cannot arise here: all finite operands are exact
rationals.) -/
def jsDiv : JSNum → JSNum → JSNum
  | .nan, _ => .nan
  | _, .nan => .nan
  | .inf, .inf => .nan
  | .inf, .ninf => .nan
  | .ninf, .inf => .nan
  | .ninf, .ninf => .nan
  | .inf, .fin b => if b < 0 then .ninf else .inf
  | .ninf, .fin b => if b < 0 then .inf else .ninf
  | .fin _, .inf => .fin 0
  | .fin _, .ninf => .fin 0
  | .fin a, .fin b =>
    if b = 0 then (if a = 0 then .nan else if a > 0 then .inf else .ninf)
    else .fin (a / b)

/-- JavaScript `Math.pow(x, 2)`. -/
def jsPow2 : JSNum → JSNum
  | .nan => .nan
  | .inf => .inf
  | .ninf => .inf
  | .fin a => .fin (a ^ 2)

/-- JavaScript `<=` on numbers (`false` whenever either side is `NaN`). -/
def jsLe : JSNum → JSNum → Bool
  | .nan, _ => false
  | _, .nan => false
  | .ninf, _ => true
  | _, .ninf => false
  | .fin a, .fin b => decide (a ≤ b)
  | .fin _, .inf => true
  | .inf, .inf => true
  | .inf, .fin _ => false

/-- `parseFloat(q.toFixed(d))` on a finite value: round half-up at `d`
decimal digits. -/
def roundToQ (d : ℕ) (q : ℚ) : ℚ := (⌊q * 10 ^ d + 1 / 2⌋ : ℚ) / 10 ^ d

/-- `parseFloat(x.toFixed(d))` on a `JSNum`; `NaN` and `±Infinity`
round-trip unchanged. -/
def roundToJS (d : ℕ) : JSNum → JSNum
  | .fin q => .fin (roundToQ d q)
  | x => x

/-- `Math.abs(tStatistic)`, where
`tStatistic = diff / Math.sqrt(S)`: `NaN` / `+Infinity`, or a finite
nonnegative value represented by its square (see the header comment). -/
inductive AbsT where
  | nan : AbsT
  | inf : AbsT
  | fin : ℚ → AbsT
deriving DecidableEq, Repr

/-- `|diff / Math.sqrt(S)|` for a finite `diff` (means are rationals) and
an arbitrary `S`, in the squared representation. -/
def absTStat (diff : ℚ) (S : JSNum) : AbsT :=
  match S with
  | .nan => .nan
  | .ninf => .nan
  | .inf => .fin 0
  | .fin s =>
    if s < 0 then .nan
    else if s = 0 then (if diff = 0 then .nan else .inf)
    else .fin (diff ^ 2 / s)

/-- The comparison `|t| < c` of `calculatePValue` for a threshold
`c > 0`, on the squared representation (`false` on `NaN`, as in JS). -/
def absTLt (t : AbsT) (c : ℚ) : Bool :=
  match t with
  | .nan => false
  | .inf => false
  | .fin sq => decide (sq < c ^ 2)

/-- A statistics record as consumed by the Two-Sample Comparator
(`mean`, `stddev`, `count`, `cv` — the fields `performStatisticalTest`
reads). -/
structure StatRecord where
  mean : ℚ
  stddev : ℚ
  count : ℚ
  cv : ℚ
deriving DecidableEq, Repr

/-- `calculatePValue(tStat, df)` from `src/compare.js` (lines 355-367):
the fixed two-tailed lookup table, with the `df <= 0` guard first. -/
def calculatePValue (tStat : AbsT) (df : JSNum) : ℚ :=
  if jsLe df (.fin 0) then 1
  else if absTLt tStat 1 then 1 / 2
  else if absTLt tStat 2 then 1 / 10
  else if absTLt tStat 3 then 1 / 100
  else if absTLt tStat 4 then 1 / 1000
  else 1 / 10000

/-- Result of `welchTTest`.  The rounded signed `tStatistic` of the source
is not representable without `sqrt`; it is carried in absolute value as
`tAbs` (its only consumer downstream is `calculatePValue`). -/
structure TTestResult where
  tAbs : AbsT
  degreesOfFreedom : JSNum
  pValue : ℚ
deriving DecidableEq, Repr

/-- `welchTTest(baseline, comparison)` from `src/compare.js`
(lines 328-353). -/
def welchTTest (baseline comparison : StatRecord) : TTestResult :=
  let n1 := baseline.count
  let n2 := comparison.count
  let var1 := baseline.stddev * baseline.stddev
  let var2 := comparison.stddev * comparison.stddev
  let S := jsAdd (jsDiv (.fin var1) (.fin n1)) (jsDiv (.fin var2) (.fin n2))
  let tAbs := absTStat (baseline.mean - comparison.mean) S
  let numerator := jsPow2 S
  let denominator :=
    jsAdd (jsDiv (jsPow2 (jsDiv (.fin var1) (.fin n1))) (.fin (n1 - 1)))
          (jsDiv (jsPow2 (jsDiv (.fin var2) (.fin n2))) (.fin (n2 - 1)))
  let df := jsDiv numerator denominator
  let pValue := calculatePValue tAbs df
  { tAbs := tAbs, degreesOfFreedom := roundToJS 2 df, pValue := roundToQ 4 pValue }

/-- `change.direction` of `performStatisticalTest`. -/
inductive Direction where
  | increase : Direction
  | decrease : Direction
  | noChange : Direction
deriving DecidableEq, Repr

/-- The `change` block of a comparison result. -/
structure ChangeBlock where
  absolute : ℚ
  percent : ℚ
  direction : Direction
deriving DecidableEq, Repr

/-- The `significance` block of a comparison result (the source copies
`tStatistic`, `pValue`, `isSignificant` and `confidenceLevel`;
`degreesOfFreedom` stays inside the t-test result). -/
structure SignificanceBlock where
  tAbs : AbsT
  pValue : ℚ
  isSignificant : Bool
  confidenceLevel : ℚ
deriving DecidableEq, Repr

/-- `interpretation.magnitude`. -/
inductive Magnitude where
  | small : Magnitude
  | medium : Magnitude
  | large : Magnitude
deriving DecidableEq, Repr

/-- Which branch of `interpretStatisticalResult` built the
`summary`/`recommendation` strings (the strings themselves are pure
renderings of this choice plus `change.percent`). -/
inductive SummaryKind where
  | sigRegression : SummaryKind
  | sigImprovement : SummaryKind
  | sigInRange : SummaryKind
  | noSigChange : SummaryKind
deriving DecidableEq, Repr

/-- The `interpretation` block of a comparison result. -/
structure Interpretation where
  significant : Bool
  magnitude : Magnitude
  summary : SummaryKind
deriving DecidableEq, Repr

/-- `interpretStatisticalResult(result)` from `src/compare.js`
(lines 369-415); it reads only `result.change` and `result.significance`,
which are passed directly.  `regressionThreshold * 100 = 5`. -/
def interpretStatisticalResult (change : ChangeBlock)
    (significance : SignificanceBlock) : Interpretation :=
  let absPercent := |change.percent|
  let magnitude :=
    if absPercent < 5 then Magnitude.small
    else if absPercent < 15 then Magnitude.medium
    else Magnitude.large
  let isRegression := decide (change.percent > (5 : ℚ))
  let isImprovement := decide (change.percent < (-5 : ℚ))
  let summary :=
    if significance.isSignificant then
      if isRegression then SummaryKind.sigRegression
      else if isImprovement then SummaryKind.sigImprovement
      else SummaryKind.sigInRange
    else SummaryKind.noSigChange
  { significant := significance.isSignificant
    magnitude := magnitude
    summary := summary }

/-- A per-metric comparison result (`performStatisticalTest`'s return
value; the echoed `baseline`/`comparison` sub-objects are the input
records by value). -/
structure TestResult where
  baseline : StatRecord
  comparison : StatRecord
  change : ChangeBlock
  significance : SignificanceBlock
  interpretation : Interpretation
deriving DecidableEq, Repr

/-- `performStatisticalTest(baseline, comparison)` from `src/compare.js`
(lines 284-326).  `significanceThreshold = 0.05`,
`confidenceLevel = 0.95`. -/
def performStatisticalTest (baseline comparison : StatRecord) : TestResult :=
  let meanChange := comparison.mean - baseline.mean
  let meanChangePercent :=
    if baseline.mean > 0 then meanChange / baseline.mean * 100 else 0
  let change : ChangeBlock :=
    { absolute := roundToQ 2 meanChange
      percent := roundToQ 2 meanChangePercent
      direction :=
        if meanChange > 0 then Direction.increase
        else if meanChange < 0 then Direction.decrease
        else Direction.noChange }
  let tTest := welchTTest baseline comparison
  let significance : SignificanceBlock :=
    { tAbs := tTest.tAbs
      pValue := tTest.pValue
      isSignificant := decide (tTest.pValue < 5 / 100)
      confidenceLevel := 95 / 100 }
  { baseline := baseline
    comparison := comparison
    change := change
    significance := significance
    interpretation := interpretStatisticalResult change significance }

/-- Association-list lookup modelling JS property access (first binding
wins, insertion order preserved). -/
def lookupA {β : Type} (l : List (String × β)) (k : String) : Option β :=
  (l.find? (fun p => p.1 == k)).map Prod.snd

/-- `new Set([...as, ...bs])` iterated in insertion order: first
occurrence of each element is kept. -/
def firstDedupAux (seen : List String) : List String → List String
  | [] => []
  | a :: l =>
    if seen.contains a then firstDedupAux seen l
    else a :: firstDedupAux (a :: seen) l

/-- First-occurrence deduplication (JS `Set` iteration order). -/
def firstDedup (l : List String) : List String := firstDedupAux [] l

/-- An infrastructure impact label. -/
inductive Impact where
  | neutral : Impact
  | positive : Impact
  | negative : Impact
  | change : Impact
  | sigPositive : Impact
  | sigNegative : Impact
deriving DecidableEq, Repr

/-- CDN metadata fields read by `assessCdnImpact`/`compareCdn`. -/
structure CdnInfo where
  detected : Bool
  provider : String
  popLocation : String
deriving DecidableEq, Repr

/-- Compression metadata (`ratioValue` embeds the source field
`ratio`). -/
structure CompressionInfo where
  algorithm : String
  ratioValue : ℚ
deriving DecidableEq, Repr

/-- Protocol metadata fields read by `assessProtocolImpact`. -/
structure ProtocolInfo where
  page : String
  http2Support : Bool
  http3Support : Bool
deriving DecidableEq, Repr

/-- Security metadata fields read by `compareSecurity`. -/
structure SecurityInfo where
  score : ℚ
deriving DecidableEq, Repr

/-- Caching metadata fields read by `compareCaching`. -/
structure CachingInfo where
  strategy : String
  effectiveness : ℚ
deriving DecidableEq, Repr

/-- Per-environment infrastructure metadata; a `none` component models a
missing object (the source then returns an `{error}` object without an
`impact` field). -/
structure Infrastructure where
  cdn : Option CdnInfo
  compression : Option CompressionInfo
  protocols : Option ProtocolInfo
  security : Option SecurityInfo
  caching : Option CachingInfo
deriving DecidableEq, Repr

/-- `assessCdnImpact(baseline, comparison)` (`src/compare.js` 74-86). -/
def assessCdnImpact (baseline comparison : CdnInfo) : Impact :=
  if !baseline.detected && comparison.detected then .positive
  else if baseline.detected && !comparison.detected then .negative
  else if baseline.provider ≠ comparison.provider then .change
  else .neutral

/-- `compareCdn` (`src/compare.js` 55-72); only the `impact` field is
read by `generateSummary`, the echoed provider/location fields are
omitted.  `none` is the `{error}` object (no `impact`). -/
def compareCdn : Option CdnInfo → Option CdnInfo → Option Impact
  | some b, some c => some (assessCdnImpact b c)
  | _, _ => none

/-- `assessCompressionImpact(improvement)` (`src/compare.js` 106-112). -/
def assessCompressionImpact (improvement : ℚ) : Impact :=
  if improvement > 10 then .sigPositive
  else if improvement > 5 then .positive
  else if improvement < -10 then .sigNegative
  else if improvement < -5 then .negative
  else .neutral

/-- `compareCompression` (`src/compare.js` 88-104), `impact` field only. -/
def compareCompression : Option CompressionInfo → Option CompressionInfo → Option Impact
  | some b, some c =>
    let improvement :=
      if b.ratioValue > 0 ∧ c.ratioValue > 0 then
        (b.ratioValue - c.ratioValue) / b.ratioValue * 100
      else 0
    some (assessCompressionImpact improvement)
  | _, _ => none

/-- `assessProtocolImpact` (`src/compare.js` 150-155). -/
def assessProtocolImpact (baseline comparison : ProtocolInfo) : Impact :=
  if !baseline.http2Support && comparison.http2Support then .positive
  else if baseline.http2Support && !comparison.http2Support then .negative
  else if !baseline.http3Support && comparison.http3Support then .positive
  else .neutral

/-- `compareProtocols` (`src/compare.js` 114-127), `impact` field only. -/
def compareProtocols : Option ProtocolInfo → Option ProtocolInfo → Option Impact
  | some b, some c => some (assessProtocolImpact b c)
  | _, _ => none

/-- `compareSecurity` (`src/compare.js` 157-167), `impact` field only. -/
def compareSecurity : Option SecurityInfo → Option SecurityInfo → Option Impact
  | some b, some c =>
    let scoreChange := c.score - b.score
    some (if scoreChange > 10 then .positive
          else if scoreChange < -10 then .negative
          else .neutral)
  | _, _ => none

/-- `compareCaching` (`src/compare.js` 190-201), `impact` field only. -/
def compareCaching : Option CachingInfo → Option CachingInfo → Option Impact
  | some b, some c =>
    let effectivenessChange := c.effectiveness - b.effectiveness
    some (if effectivenessChange > 10 then .positive
          else if effectivenessChange < -10 then .negative
          else .neutral)
  | _, _ => none

/-- The five-category result of `compareInfrastructure`
(`src/compare.js` 43-53), reduced to the `impact` fields that
`generateSummary` reads. -/
structure InfraAnalysis where
  cdn : Option Impact
  compression : Option Impact
  protocols : Option Impact
  security : Option Impact
  caching : Option Impact
deriving DecidableEq, Repr

/-- `compareInfrastructure(baseline, comparison)`. -/
def compareInfrastructure (b c : Infrastructure) : InfraAnalysis :=
  { cdn := compareCdn b.cdn c.cdn
    compression := compareCompression b.compression c.compression
    protocols := compareProtocols b.protocols c.protocols
    security := compareSecurity b.security c.security
    caching := compareCaching b.caching c.caching }

/-- `Object.entries(analysis.infrastructure)` in insertion order. -/
def infraEntries (ia : InfraAnalysis) : List (String × Option Impact) :=
  [("cdn", ia.cdn), ("compression", ia.compression),
   ("protocols", ia.protocols), ("security", ia.security),
   ("caching", ia.caching)]

/-- A scenario result as read by the comparison engine: the per-metric
statistics records (`scenario.statistics`), keyed by metric name. -/
structure ScenarioData where
  statistics : List (String × StatRecord)
deriving DecidableEq, Repr

/-- A full environment result set as consumed by
`compareEnvironments`. -/
structure EnvResults where
  infrastructure : Option Infrastructure
  scenarios : Option (List (String × ScenarioData))
deriving DecidableEq, Repr

/-- One `commonMetrics.forEach` step of `compareStatistics`: the pushed
entry, or nothing when a lookup fails. -/
def statPair (b c : List (String × StatRecord)) (metric : String) :
    List (String × TestResult) :=
  match lookupA b metric, lookupA c metric with
  | some bs, some cs => [(metric, performStatisticalTest bs cs)]
  | _, _ => []

/-- `compareStatistics(baseline, comparison)` (`src/compare.js` 264-282):
metrics of the baseline that also exist in the comparison, in baseline
key order (every modelled entry is an object with a `mean`, so the
`typeof`/`mean !== undefined` filters keep every key). -/
def compareStatistics (b c : List (String × StatRecord)) :
    List (String × TestResult) :=
  let commonMetrics := (b.map Prod.fst).filter (fun m => (c.map Prod.fst).contains m)
  commonMetrics.foldl (fun acc m => acc ++ statPair b c m) []

/-- `compareScenario` (`src/compare.js` 242-262), reduced to its
`statistical` block — the only part `generateSummary` reads (the
`performance`/`reliability` blocks are omitted). -/
def compareScenarioPair (b c : ScenarioData) : List (String × TestResult) :=
  compareStatistics b.statistics c.statistics

/-- One `allScenarios.forEach` step of `compareScenarios`. -/
def scenarioEntry (b c : List (String × ScenarioData)) (name : String) :
    List (String × List (String × TestResult)) :=
  match lookupA b name, lookupA c name with
  | some bs, some cs => [(name, compareScenarioPair bs cs)]
  | _, _ => []

/-- `compareScenarios(baseline, comparison)` (`src/compare.js` 221-240). -/
def compareScenarios (b c : List (String × ScenarioData)) :
    List (String × List (String × TestResult)) :=
  let allScenarios := firstDedup (b.map Prod.fst ++ c.map Prod.fst)
  allScenarios.foldl (fun acc name => acc ++ scenarioEntry b c name) []

/-- `comparisonResult.analysis`. -/
structure Analysis where
  infrastructure : Option InfraAnalysis
  scenarios : Option (List (String × List (String × TestResult)))
deriving DecidableEq, Repr

/-- An element of the summary's `significantChanges` / `regressions` /
`improvements` lists.  The source pushes strings rendered from exactly
these fields; the rendering is kept abstract. -/
inductive SummaryItem where
  | infra (category : String) (impact : Impact) : SummaryItem
  | metric (scenarioName metricName : String) (percent : ℚ) : SummaryItem
deriving DecidableEq, Repr

/-- `summary.overallImpact`. -/
inductive OverallImpact where
  | neutral : OverallImpact
  | positive : OverallImpact
  | negative : OverallImpact
deriving DecidableEq, Repr

/-- `summary.stability`. -/
inductive Stability where
  | stable : Stability
  | changing : Stability
  | unstable : Stability
deriving DecidableEq, Repr

/-- The run summary built by `generateSummary`. -/
structure Summary where
  overallImpact : OverallImpact
  significantChanges : List SummaryItem
  regressions : List SummaryItem
  improvements : List SummaryItem
  stability : Stability
deriving DecidableEq, Repr

/-- `impact === 'positive' || impact === 'significant-positive'`. -/
def isPositiveImpact : Impact → Bool
  | .positive => true
  | .sigPositive => true
  | _ => false

/-- `impact === 'negative' || impact === 'significant-negative'`. -/
def isNegativeImpact : Impact → Bool
  | .negative => true
  | .sigNegative => true
  | _ => false

/-- One infrastructure step of `generateSummary` (`src/compare.js`
549-557); a category without an `impact` field contributes nothing. -/
def infraFold (acc : Summary) (entry : String × Option Impact) : Summary :=
  match entry.2 with
  | none => acc
  | some imp =>
    if isPositiveImpact imp then
      { acc with improvements := acc.improvements ++ [.infra entry.1 imp] }
    else if isNegativeImpact imp then
      { acc with regressions := acc.regressions ++ [.infra entry.1 imp] }
    else acc

/-- One per-metric step of the scenario loop of `generateSummary`
(`src/compare.js` 563-575): pushes into `significantChanges` only when
significant, and only then (nested) into `regressions`/`improvements`
when `|percent| > 5`. -/
def metricFold (scenarioName : String) (acc : Summary)
    (entry : String × TestResult) : Summary :=
  let result := entry.2
  if result.significance.isSignificant then
    let acc' := { acc with significantChanges :=
      acc.significantChanges ++ [.metric scenarioName entry.1 result.change.percent] }
    if |result.change.percent| > 5 then
      if result.change.percent > 0 then
        { acc' with regressions :=
          acc'.regressions ++ [.metric scenarioName entry.1 result.change.percent] }
      else
        { acc' with improvements :=
          acc'.improvements ++ [.metric scenarioName entry.1 result.change.percent] }
    else acc'
  else acc

/-- One per-scenario step of `generateSummary`. -/
def scenarioFold (acc : Summary)
    (entry : String × List (String × TestResult)) : Summary :=
  entry.2.foldl (metricFold entry.1) acc

/-- The `overallImpact` decision of `generateSummary`
(`src/compare.js` 580-585). -/
def applyOverallImpact (s : Summary) : Summary :=
  if s.regressions.length > s.improvements.length then
    { s with overallImpact := .negative }
  else if s.improvements.length > s.regressions.length then
    { s with overallImpact := .positive }
  else s

/-- The `stability` decision of `generateSummary`
(`src/compare.js` 587-592). -/
def applyStability (s : Summary) : Summary :=
  if s.significantChanges.length > 5 then { s with stability := .unstable }
  else if s.significantChanges.length > 2 then { s with stability := .changing }
  else s

/-- `generateSummary(analysis)` from `src/compare.js` (lines 539-595). -/
def generateSummary (analysis : Analysis) : Summary :=
  let s0 : Summary :=
    { overallImpact := .neutral, significantChanges := [], regressions := []
      improvements := [], stability := .stable }
  let s1 := match analysis.infrastructure with
    | none => s0
    | some ia => (infraEntries ia).foldl infraFold s0
  let s2 := match analysis.scenarios with
    | none => s1
    | some scs => scs.foldl scenarioFold s1
  applyStability (applyOverallImpact s2)

/-- `comparisonResult`, reduced to the `analysis` and `summary` fields
the claims concern (timestamps, echoed names and the recommendation list
are omitted). -/
structure ComparisonResult where
  analysis : Analysis
  summary : Summary
deriving DecidableEq, Repr

/-- `compareEnvironments(baseline, comparison)` from `src/compare.js`
(lines 8-41): each analysis dimension is computed only when present on
both sides, then folded into the summary. -/
def compareEnvironments (baseline comparison : EnvResults) : ComparisonResult :=
  let analysis : Analysis :=
    { infrastructure :=
        match baseline.infrastructure, comparison.infrastructure with
        | some bi, some ci => some (compareInfrastructure bi ci)
        | _, _ => none
      scenarios :=
        match baseline.scenarios, comparison.scenarios with
        | some bs, some cs => some (compareScenarios bs cs)
        | _, _ => none }
  { analysis := analysis, summary := generateSummary analysis }

/-- Issue/warning severity in the Run Validator. -/
inductive Severity where
  | error : Severity
  | warning : Severity
deriving DecidableEq, Repr

/-- A structured issue or warning entry (`type`, `severity`, `value`;
message strings and environment/scenario labels are renderings of the
surrounding loop variables and are omitted). -/
structure VIssue where
  type : String
  severity : Severity
  value : ℚ
deriving DecidableEq, Repr

/-- A per-metric statistics record as read by `validateStatistics`
(fields `cv` and `count`; `mean` only gates participation and every
modelled record has one). -/
structure VStats where
  mean : ℚ
  cv : ℚ
  count : ℚ
deriving DecidableEq, Repr

/-- A scenario as read by `validateStatistics`: metric records plus the
optional `statistics.successRate` number. -/
structure VScenData where
  metrics : List (String × VStats)
  successRate : Option ℚ
deriving DecidableEq, Repr

/-- An environment entry of `results.results`. -/
structure VEnv where
  scenarios : List (String × VScenData)
deriving DecidableEq, Repr

/-- The accumulating state of `validateStatistics`: the sub-report fields
plus its metric counters. -/
structure VStatState where
  passed : Bool
  issues : List VIssue
  warnings : List VIssue
  totalMetrics : ℕ
  unstableMetrics : ℕ
  reliableMetrics : ℕ
deriving DecidableEq, Repr

/-- The per-metric CV / sample-size checks of `validateStatistics`
(`src/validation.js` 163-208); `coefficientOfVariation` threshold 10,
error band at `cv > 20`. -/
def metricCheck (st : VStatState) (entry : String × VStats) : VStatState :=
  let cv := entry.2.cv
  let st := { st with totalMetrics := st.totalMetrics + 1 }
  let st :=
    if cv > 20 then
      { st with issues := st.issues ++ [⟨"high_variability", .error, cv⟩]
                unstableMetrics := st.unstableMetrics + 1
                passed := false }
    else if cv > 10 then
      { st with warnings := st.warnings ++ [⟨"moderate_variability", .warning, cv⟩] }
    else
      { st with reliableMetrics := st.reliableMetrics + 1 }
  if entry.2.count < 5 then
    { st with warnings := st.warnings ++ [⟨"small_sample_size", .warning, entry.2.count⟩] }
  else st

/-- The per-scenario step of `validateStatistics`
(`src/validation.js` 161-229): metric checks, then the success-rate check
(threshold 95; severity `error` and `passed = false` only below 80). -/
def scenCheck (st : VStatState) (entry : String × VScenData) : VStatState :=
  let st1 := entry.2.metrics.foldl metricCheck st
  match entry.2.successRate with
  | none => st1
  | some rate =>
    if rate < 95 then
      let st2 := { st1 with issues :=
        st1.issues ++ [⟨"low_success_rate", if rate < 80 then .error else .warning, rate⟩] }
      if rate < 80 then { st2 with passed := false } else st2
    else st1

/-- The per-environment step of `validateStatistics`. -/
def envCheck (st : VStatState) (entry : String × VEnv) : VStatState :=
  entry.2.scenarios.foldl scenCheck st

/-- `validateStatistics(results)` from `src/validation.js`
(lines 145-241), over the `results.results` environment map. -/
def validateStatistics (envs : List (String × VEnv)) : VStatState :=
  envs.foldl envCheck ⟨true, [], [], 0, 0, 0⟩

/-- A sub-report as consumed by `aggregateValidationResults` (the five
entries of `validation.detailed`). -/
structure SubReport where
  passed : Bool
  issues : List VIssue
  warnings : List VIssue
deriving DecidableEq, Repr

/-- The aggregated top-level validation verdict. -/
structure ValidationAgg where
  passed : Bool
  score : ℤ
  issues : List VIssue
  warnings : List VIssue
deriving DecidableEq, Repr

/-- `aggregateValidationResults(validation)` from `src/validation.js`
(lines 565-594): folds the five sub-reports of `validation.detailed`
(insertion order: execution, statistics, dataQuality, infrastructure,
coverage) into the top-level report; `validation.passed` starts `true`. -/
def aggregateValidationResults
    (execution statistics dataQuality infrastructure coverage : SubReport) :
    ValidationAgg :=
  let sections := [execution, statistics, dataQuality, infrastructure, coverage]
  let totalIssues := (sections.map (fun s => s.issues.length)).sum
  let totalWarnings := (sections.map (fun s => s.warnings.length)).sum
  let issues := sections.foldl (fun acc s => acc ++ s.issues) []
  let warnings := sections.foldl (fun acc s => acc ++ s.warnings) []
  let passed := sections.foldl (fun p s => if !s.passed then false else p) true
  { passed := passed
    score := max 0 (100 - 10 * (totalIssues : ℤ) - 5 * (totalWarnings : ℤ))
    issues := issues
    warnings := warnings }

/-- `Math.floor(len * q)` as a natural index (the percentile rank of
`calculateStatistics`). -/
def pIdx (len : ℕ) (q : ℚ) : ℕ := (⌊(len : ℚ) * q⌋).toNat

/-- The statistics record produced by `calculateStatistics`
(`src/unnamed/part_004` 248-272).  `varPop` is the population variance;
the source stores `stddev = Math.sqrt(varPop)` and
`cv = mean > 0 ? stddev/mean*100 : 0`, which are irrational in general
and are read by no claim under verification. -/
structure StatsOut where
  count : ℕ
  min : ℚ
  max : ℚ
  mean : ℚ
  median : ℚ
  varPop : ℚ
  p75 : ℚ
  p90 : ℚ
  p95 : ℚ
  p99 : ℚ
deriving DecidableEq, Repr

/-- `calculateStatistics(values)` from `src/unnamed/part_004`
(lines 248-272): `null` on an empty sequence, otherwise the record over
the ascending-sorted copy (`[...values].sort((a,b) => a-b)`). -/
def calculateStatistics (values : List ℚ) : Option StatsOut :=
  if values = [] then none
  else
    let sorted := values.insertionSort (· ≤ ·)
    let len := sorted.length
    let mean := sorted.sum / (len : ℚ)
    let variance := (sorted.map (fun v => (v - mean) ^ 2)).sum / (len : ℚ)
    some
      { count := len
        min := sorted.getD 0 0
        max := sorted.getD (len - 1) 0
        mean := roundToQ 2 mean
        median :=
          if len % 2 = 0 then
            (sorted.getD (len / 2 - 1) 0 + sorted.getD (len / 2) 0) / 2
          else sorted.getD (len / 2) 0
        varPop := variance
        p75 := sorted.getD (pIdx len (75 / 100)) 0
        p90 := sorted.getD (pIdx len (90 / 100)) 0
        p95 := sorted.getD (pIdx len (95 / 100)) 0
        p99 := sorted.getD (pIdx len (99 / 100)) 0 }

/-- A JavaScript value as traversed by `flattenObject` (numbers, other
primitives, `null`, arrays, and plain objects as ordered field lists). -/
inductive JVal where
  | num (x : JSNum) : JVal
  | str (s : String) : JVal
  | boolean (b : Bool) : JVal
  | nul : JVal
  | arr (elems : List JVal) : JVal
  | obj (fields : List (String × JVal)) : JVal

/-- The dot-joined metric path (`prefix ? prefix + "." + key : key`). -/
def joinKey (pre k : String) : String := if pre = "" then k else pre ++ "." ++ k

/-- `if (!result[fullKey]) result[fullKey] = []; result[fullKey].push(v)`:
append to the existing sequence in place, or add a new key at the end. -/
def pushSample : List (String × List JSNum) → String → JSNum →
    List (String × List JSNum)
  | [], key, v => [(key, [v])]
  | (k, l) :: rest, key, v =>
    if k = key then (k, l ++ [v]) :: rest
    else (k, l) :: pushSample rest key v

/-- `flattenObject(obj, result, prefix)` from `src/unnamed/part_004`
(lines 235-246) — identical to `src/compare.js` (lines 491-502): a leaf
is appended iff it is a number with `!isNaN(value)`; plain objects
(non-null, non-array) are recursed into; everything else is skipped. -/
def flattenObject : List (String × JVal) → List (String × List JSNum) → String →
    List (String × List JSNum)
  | [], result, _ => result
  | (k, JVal.num x) :: rest, result, pre =>
    flattenObject rest
      (if jsIsNaN x then result else pushSample result (joinKey pre k) x) pre
  | (k, JVal.obj fields) :: rest, result, pre =>
    flattenObject rest (flattenObject fields result (joinKey pre k)) pre
  | (_, JVal.str _) :: rest, result, pre => flattenObject rest result pre
  | (_, JVal.boolean _) :: rest, result, pre => flattenObject rest result pre
  | (_, JVal.nul) :: rest, result, pre => flattenObject rest result pre
  | (_, JVal.arr _) :: rest, result, pre => flattenObject rest result pre

/-- Lookup of one metric path's sample sequence (`result[key] ?? []`). -/
def lookupD : List (String × List JSNum) → String → List JSNum
  | [], _ => []
  | (k, l) :: rest, p => if k = p then l else lookupD rest p

/-- Baseline record of the C5 end-to-end scenario
(`timing.total = {mean: 369, stddev: 30, count: 10}`). -/
def c5Baseline : StatRecord := ⟨369, 30, 10, 0⟩

/-- Comparison record of the C5 end-to-end scenario
(`{mean: 1959, stddev: 403, count: 10}`). -/
def c5Comparison : StatRecord := ⟨1959, 403, 10, 0⟩

/-- Baseline record of the C1 counterexample: huge stddev makes the 50%
change statistically insignificant. -/
def c1Baseline : StatRecord := ⟨100, 1000, 10, 0⟩

/-- Comparison record of the C1 counterexample (mean 50% higher). -/
def c1Comparison : StatRecord := ⟨150, 1000, 10, 0⟩

/-- The result set refuting C3: a single metric whose stddev is 0 makes
the degenerate self-t-test (NaN degrees of freedom) come out
"significant". -/
def c3CounterRun : EnvResults :=
  ⟨none, some [("s", ⟨[("m", ⟨100, 0, 5, 0⟩)]⟩)]⟩

/-! ## Helper lemmas -/

theorem foldl_pres {α β : Type*} {f : β → α → β} {P : β → Prop}
    (pres : ∀ a x, P a → P (f a x)) :
    ∀ (l : List α) (acc : β), P acc → P (l.foldl f acc) := by
  intro l
  induction l with
  | nil => intro acc h; exact h
  | cons x xs ih => intro acc h; exact ih (f acc x) (pres acc x h)

theorem foldl_trigger {α β : Type*} {f : β → α → β} {P : β → Prop}
    {l : List α} {e : α} (he : e ∈ l) (trig : ∀ a, P (f a e))
    (pres : ∀ a x, P a → P (f a x)) :
    ∀ acc : β, P (l.foldl f acc) := by
  induction l with
  | nil => cases he
  | cons x xs ih =>
    intro acc
    rw [List.foldl_cons]
    rcases List.mem_cons.mp he with h | h
    · subst h
      exact foldl_pres pres xs (f acc e) (trig acc)
    · exact ih h (f acc x)

theorem foldl_id {α β : Type*} {f : β → α → β} {l : List α}
    (hid : ∀ x ∈ l, ∀ a, f a x = a) :
    ∀ acc : β, l.foldl f acc = acc := by
  induction l with
  | nil => intro acc; rfl
  | cons x xs ih =>
    intro acc
    rw [List.foldl_cons, hid x (List.mem_cons_self x xs)]
    exact ih (fun y hy a => hid y (List.mem_cons_of_mem x hy) a) acc

theorem mem_foldl_append {α β : Type*} {g : α → List β} {l : List α}
    {x : β} :
    ∀ {init : List β},
      x ∈ l.foldl (fun acc m => acc ++ g m) init ↔
        x ∈ init ∨ ∃ m ∈ l, x ∈ g m := by
  induction l with
  | nil => intro init; simp
  | cons a as ih =>
    intro init
    rw [List.foldl_cons, ih]
    simp only [List.mem_append, List.mem_cons]
    constructor
    · rintro ((h | h) | ⟨m, hm, hx⟩)
      · exact Or.inl h
      · exact Or.inr ⟨a, Or.inl rfl, h⟩
      · exact Or.inr ⟨m, Or.inr hm, hx⟩
    · rintro (h | ⟨m, (rfl | hm), hx⟩)
      · exact Or.inl (Or.inl h)
      · exact Or.inl (Or.inr hx)
      · exact Or.inr ⟨m, hm, hx⟩

theorem lookupA_mem {β : Type} {l : List (String × β)} {k : String} {b : β}
    (h : lookupA l k = some b) : (k, b) ∈ l := by
  unfold lookupA at h
  rcases hf : l.find? (fun p => p.1 == k) with _ | p
  · rw [hf] at h; cases h
  · rw [hf] at h
    have hp : p ∈ l := List.mem_of_find?_eq_some hf
    have hk : p.1 = k := by
      have := List.find?_some hf
      exact beq_iff_eq.mp this
    have hb : p.2 = b := by
      simpa using h
    have : p = (k, b) := Prod.ext hk hb
    rwa [this] at hp

theorem roundToQ_eq {d : ℕ} {q : ℚ} {n : ℤ} (h1 : (n : ℚ) ≤ q * 10 ^ d + 1 / 2)
    (h2 : q * 10 ^ d + 1 / 2 < n + 1) : roundToQ d q = (n : ℚ) / 10 ^ d := by
  rw [roundToQ, show ⌊q * 10 ^ d + 1 / 2⌋ = n from Int.floor_eq_iff.mpr ⟨h1, by exact_mod_cast h2⟩]

theorem roundToQ_four_one : roundToQ 4 1 = 1 := by
  rw [roundToQ_eq (n := 10000) (by norm_num) (by norm_num)]; norm_num

theorem roundToQ_four_half : roundToQ 4 (1 / 2) = 1 / 2 := by
  rw [roundToQ_eq (n := 5000) (by norm_num) (by norm_num)]; norm_num

theorem roundToQ_four_tenth : roundToQ 4 (1 / 10) = 1 / 10 := by
  rw [roundToQ_eq (n := 1000) (by norm_num) (by norm_num)]; norm_num

theorem roundToQ_four_hundredth : roundToQ 4 (1 / 100) = 1 / 100 := by
  rw [roundToQ_eq (n := 100) (by norm_num) (by norm_num)]; norm_num

theorem roundToQ_four_thousandth : roundToQ 4 (1 / 1000) = 1 / 1000 := by
  rw [roundToQ_eq (n := 10) (by norm_num) (by norm_num)]; norm_num

theorem roundToQ_four_tenthousandth : roundToQ 4 (1 / 10000) = 1 / 10000 := by
  rw [roundToQ_eq (n := 1) (by norm_num) (by norm_num)]; norm_num

theorem calcP_fin_zero (df : JSNum) :
    roundToQ 4 (calculatePValue (.fin 0) df) = 1 ∨
      roundToQ 4 (calculatePValue (.fin 0) df) = 1 / 2 := by
  unfold calculatePValue
  by_cases hdf : jsLe df (.fin 0) = true
  · rw [if_pos hdf]; exact Or.inl roundToQ_four_one
  · rw [if_neg hdf, if_pos (by norm_num [absTLt])]
    exact Or.inr roundToQ_four_half

theorem welchTTest_self_pValue (r : StatRecord) (h : r.stddev ≠ 0) :
    (welchTTest r r).pValue = 1 ∨ (welchTTest r r).pValue = 1 / 2 := by
  have hvar : 0 < r.stddev * r.stddev := mul_self_pos.mpr h
  rcases lt_trichotomy r.count 0 with hn | hn | hn
  · -- r.count < 0: |t| is NaN but df < 0, so the p-value is 1
    left
    have hne : r.count ≠ 0 := ne_of_lt hn
    have hdiv : jsDiv (.fin (r.stddev * r.stddev)) (.fin r.count) =
        .fin (r.stddev * r.stddev / r.count) := by simp [jsDiv, hne]
    have hw : r.stddev * r.stddev / r.count < 0 := div_neg_of_pos_of_neg hvar hn
    have hS : r.stddev * r.stddev / r.count + r.stddev * r.stddev / r.count < 0 := by linarith
    have hn1 : r.count - 1 ≠ 0 := by
      intro hc; rw [sub_eq_zero] at hc; rw [hc] at hn; linarith
    have hwne : r.stddev * r.stddev / r.count ≠ 0 := ne_of_lt hw
    have hwsq : 0 < (r.stddev * r.stddev / r.count) ^ 2 :=
      lt_of_le_of_ne (sq_nonneg _) (Ne.symm (pow_ne_zero 2 hwne))
    have hn1' : r.count - 1 < 0 := by linarith
    have hden : (r.stddev * r.stddev / r.count) ^ 2 / (r.count - 1) +
        (r.stddev * r.stddev / r.count) ^ 2 / (r.count - 1) < 0 := by
      have := div_neg_of_pos_of_neg hwsq hn1'
      linarith
    have hdf : (r.stddev * r.stddev / r.count + r.stddev * r.stddev / r.count) ^ 2 /
        ((r.stddev * r.stddev / r.count) ^ 2 / (r.count - 1) +
         (r.stddev * r.stddev / r.count) ^ 2 / (r.count - 1)) ≤ 0 := by
      apply le_of_lt
      apply div_neg_of_pos_of_neg _ hden
      exact lt_of_le_of_ne (sq_nonneg _) (Ne.symm (pow_ne_zero 2 (ne_of_lt hS)))
    have hdiv2 : jsDiv (.fin ((r.stddev * r.stddev / r.count) ^ 2)) (.fin (r.count - 1)) =
        .fin ((r.stddev * r.stddev / r.count) ^ 2 / (r.count - 1)) := by simp [jsDiv, hn1]
    have hdiv3 : jsDiv
        (.fin ((r.stddev * r.stddev / r.count + r.stddev * r.stddev / r.count) ^ 2))
        (.fin ((r.stddev * r.stddev / r.count) ^ 2 / (r.count - 1) +
               (r.stddev * r.stddev / r.count) ^ 2 / (r.count - 1))) =
        .fin ((r.stddev * r.stddev / r.count + r.stddev * r.stddev / r.count) ^ 2 /
              ((r.stddev * r.stddev / r.count) ^ 2 / (r.count - 1) +
               (r.stddev * r.stddev / r.count) ^ 2 / (r.count - 1))) := by
      simp [jsDiv, ne_of_lt hden]
    simp only [welchTTest]
    rw [hdiv]
    simp only [jsAdd, jsPow2]
    rw [hdiv2]
    simp only [jsAdd]
    rw [hdiv3]
    simp only [absTStat, calculatePValue, jsLe]
    rw [if_pos (decide_eq_true hdf)]
    exact roundToQ_four_one
  · -- r.count = 0: var/0 = Infinity, |t| = 0
    have hdiv : jsDiv (.fin (r.stddev * r.stddev)) (.fin r.count) = .inf := by
      rw [hn]; simp [jsDiv, hvar.ne', hvar]
    have hdiv2 : jsDiv JSNum.inf (.fin (r.count - 1)) = .ninf := by
      rw [hn]; norm_num [jsDiv]
    simp only [welchTTest]
    rw [hdiv]
    simp only [jsAdd, jsPow2]
    rw [hdiv2]
    simp only [jsAdd, jsDiv, absTStat]
    exact calcP_fin_zero _
  · -- r.count > 0: S > 0, |t| = 0
    have hne : r.count ≠ 0 := ne_of_gt hn
    have hdiv : jsDiv (.fin (r.stddev * r.stddev)) (.fin r.count) =
        .fin (r.stddev * r.stddev / r.count) := by simp [jsDiv, hne]
    have hw : 0 < r.stddev * r.stddev / r.count := div_pos hvar hn
    have hS : 0 < r.stddev * r.stddev / r.count + r.stddev * r.stddev / r.count := by linarith
    have habs : absTStat (r.mean - r.mean)
        (.fin (r.stddev * r.stddev / r.count + r.stddev * r.stddev / r.count)) = .fin 0 := by
      simp only [absTStat, sub_self]
      rw [if_neg (not_lt.mpr hS.le), if_neg hS.ne.symm]
      norm_num
    simp only [welchTTest]
    rw [hdiv]
    simp only [jsAdd]
    rw [habs]
    exact calcP_fin_zero _

theorem perform_self_insignificant (r : StatRecord) (h : r.stddev ≠ 0) :
    (performStatisticalTest r r).significance.isSignificant = false := by
  have hkey : (performStatisticalTest r r).significance.isSignificant =
      decide ((welchTTest r r).pValue < 5 / 100) := rfl
  rw [hkey]
  rcases welchTTest_self_pValue r h with h1 | h1 <;> rw [h1] <;> norm_num

theorem calcP_fin_table (sq df' : ℚ) (hdf : 0 < df') :
    calculatePValue (.fin sq) (.fin df') =
      if sq < 1 then 1 / 2
      else if sq < 4 then 1 / 10
      else if sq < 9 then 1 / 100
      else if sq < 16 then 1 / 1000
      else 1 / 10000 := by
  unfold calculatePValue
  have h0 : jsLe (JSNum.fin df') (JSNum.fin 0) = false := by
    simp only [jsLe, decide_eq_false_iff_not, not_le]
    exact hdf
  rw [h0]
  simp only [Bool.false_eq_true, if_false, absTLt, decide_eq_true_eq]
  norm_num

theorem isSignificant_eq (b c : StatRecord) :
    (performStatisticalTest b c).significance.isSignificant =
      decide ((welchTTest b c).pValue < 5 / 100) := rfl

theorem welch_pValue_eq (b c : StatRecord) :
    (welchTTest b c).pValue = roundToQ 4 (calculatePValue
      (absTStat (b.mean - c.mean)
        (jsAdd (jsDiv (.fin (b.stddev * b.stddev)) (.fin b.count))
               (jsDiv (.fin (c.stddev * c.stddev)) (.fin c.count))))
      (jsDiv
        (jsPow2 (jsAdd (jsDiv (.fin (b.stddev * b.stddev)) (.fin b.count))
                       (jsDiv (.fin (c.stddev * c.stddev)) (.fin c.count))))
        (jsAdd
          (jsDiv (jsPow2 (jsDiv (.fin (b.stddev * b.stddev)) (.fin b.count)))
                 (.fin (b.count - 1)))
          (jsDiv (jsPow2 (jsDiv (.fin (c.stddev * c.stddev)) (.fin c.count)))
                 (.fin (c.count - 1)))))) := rfl

theorem isSig_iff (b c : StatRecord) (hb : b.stddev ≠ 0) (hc : c.stddev ≠ 0)
    (hnb : 2 ≤ b.count) (hnc : 2 ≤ c.count) :
    ((performStatisticalTest b c).significance.isSignificant = true ↔
      4 * (b.stddev * b.stddev / b.count + c.stddev * c.stddev / c.count) ≤
        (b.mean - c.mean) ^ 2) := by
  have hvarb : 0 < b.stddev * b.stddev := mul_self_pos.mpr hb
  have hvarc : 0 < c.stddev * c.stddev := mul_self_pos.mpr hc
  have hnb0 : (0 : ℚ) < b.count := lt_of_lt_of_le (by norm_num) hnb
  have hnc0 : (0 : ℚ) < c.count := lt_of_lt_of_le (by norm_num) hnc
  have hw1 : 0 < b.stddev * b.stddev / b.count := div_pos hvarb hnb0
  have hw2 : 0 < c.stddev * c.stddev / c.count := div_pos hvarc hnc0
  have hS : 0 < b.stddev * b.stddev / b.count + c.stddev * c.stddev / c.count := by linarith
  have hnb1 : (0 : ℚ) < b.count - 1 := by linarith
  have hnc1 : (0 : ℚ) < c.count - 1 := by linarith
  have hdivb : jsDiv (.fin (b.stddev * b.stddev)) (.fin b.count) =
      .fin (b.stddev * b.stddev / b.count) := by simp [jsDiv, hnb0.ne']
  have hdivc : jsDiv (.fin (c.stddev * c.stddev)) (.fin c.count) =
      .fin (c.stddev * c.stddev / c.count) := by simp [jsDiv, hnc0.ne']
  have habs : absTStat (b.mean - c.mean)
      (.fin (b.stddev * b.stddev / b.count + c.stddev * c.stddev / c.count)) =
      .fin ((b.mean - c.mean) ^ 2 /
        (b.stddev * b.stddev / b.count + c.stddev * c.stddev / c.count)) := by
    simp only [absTStat]
    rw [if_neg (not_lt.mpr hS.le), if_neg hS.ne.symm]
  have hdiv2b : jsDiv (.fin ((b.stddev * b.stddev / b.count) ^ 2)) (.fin (b.count - 1)) =
      .fin ((b.stddev * b.stddev / b.count) ^ 2 / (b.count - 1)) := by
    simp [jsDiv, hnb1.ne']
  have hdiv2c : jsDiv (.fin ((c.stddev * c.stddev / c.count) ^ 2)) (.fin (c.count - 1)) =
      .fin ((c.stddev * c.stddev / c.count) ^ 2 / (c.count - 1)) := by
    simp [jsDiv, hnc1.ne']
  have hden : 0 < (b.stddev * b.stddev / b.count) ^ 2 / (b.count - 1) +
      (c.stddev * c.stddev / c.count) ^ 2 / (c.count - 1) := by
    have h1 := div_pos (pow_pos hw1 2) hnb1
    have h2 := div_pos (pow_pos hw2 2) hnc1
    linarith
  have hdfeq : jsDiv
      (.fin ((b.stddev * b.stddev / b.count + c.stddev * c.stddev / c.count) ^ 2))
      (.fin ((b.stddev * b.stddev / b.count) ^ 2 / (b.count - 1) +
             (c.stddev * c.stddev / c.count) ^ 2 / (c.count - 1))) =
      .fin ((b.stddev * b.stddev / b.count + c.stddev * c.stddev / c.count) ^ 2 /
            ((b.stddev * b.stddev / b.count) ^ 2 / (b.count - 1) +
             (c.stddev * c.stddev / c.count) ^ 2 / (c.count - 1))) := by
    simp [jsDiv, hden.ne']
  have hdfpos : 0 <
      (b.stddev * b.stddev / b.count + c.stddev * c.stddev / c.count) ^ 2 /
        ((b.stddev * b.stddev / b.count) ^ 2 / (b.count - 1) +
         (c.stddev * c.stddev / c.count) ^ 2 / (c.count - 1)) :=
    div_pos (pow_pos hS 2) hden
  rw [isSignificant_eq, decide_eq_true_eq, welch_pValue_eq, hdivb, hdivc]
  rw [show jsAdd (JSNum.fin (b.stddev * b.stddev / b.count))
        (JSNum.fin (c.stddev * c.stddev / c.count)) =
      JSNum.fin (b.stddev * b.stddev / b.count + c.stddev * c.stddev / c.count) from rfl]
  rw [habs]
  rw [show jsPow2 (JSNum.fin (b.stddev * b.stddev / b.count +
        c.stddev * c.stddev / c.count)) =
      JSNum.fin ((b.stddev * b.stddev / b.count + c.stddev * c.stddev / c.count) ^ 2)
      from rfl]
  rw [show jsPow2 (JSNum.fin (b.stddev * b.stddev / b.count)) =
      JSNum.fin ((b.stddev * b.stddev / b.count) ^ 2) from rfl]
  rw [show jsPow2 (JSNum.fin (c.stddev * c.stddev / c.count)) =
      JSNum.fin ((c.stddev * c.stddev / c.count) ^ 2) from rfl]
  rw [hdiv2b, hdiv2c]
  rw [show jsAdd (JSNum.fin ((b.stddev * b.stddev / b.count) ^ 2 / (b.count - 1)))
        (JSNum.fin ((c.stddev * c.stddev / c.count) ^ 2 / (c.count - 1))) =
      JSNum.fin ((b.stddev * b.stddev / b.count) ^ 2 / (b.count - 1) +
        (c.stddev * c.stddev / c.count) ^ 2 / (c.count - 1)) from rfl]
  rw [hdfeq, calcP_fin_table _ _ hdfpos]
  by_cases h1 : (b.mean - c.mean) ^ 2 /
      (b.stddev * b.stddev / b.count + c.stddev * c.stddev / c.count) < 1
  · rw [if_pos h1, roundToQ_four_half]
    constructor
    · intro hx; norm_num at hx
    · intro hx
      exfalso
      rw [div_lt_iff₀ hS] at h1
      nlinarith
  · rw [if_neg h1]
    by_cases h2 : (b.mean - c.mean) ^ 2 /
        (b.stddev * b.stddev / b.count + c.stddev * c.stddev / c.count) < 4
    · rw [if_pos h2, roundToQ_four_tenth]
      constructor
      · intro hx; norm_num at hx
      · intro hx
        exfalso
        rw [div_lt_iff₀ hS] at h2
        nlinarith
    · have hge : 4 * (b.stddev * b.stddev / b.count + c.stddev * c.stddev / c.count) ≤
          (b.mean - c.mean) ^ 2 := by
        push_neg at h2
        rw [le_div_iff₀ hS] at h2
        linarith
      rw [if_neg h2]
      by_cases h3 : (b.mean - c.mean) ^ 2 /
          (b.stddev * b.stddev / b.count + c.stddev * c.stddev / c.count) < 9
      · rw [if_pos h3, roundToQ_four_hundredth]
        constructor
        · intro _; exact hge
        · intro _; norm_num
      · rw [if_neg h3]
        by_cases h4 : (b.mean - c.mean) ^ 2 /
            (b.stddev * b.stddev / b.count + c.stddev * c.stddev / c.count) < 16
        · rw [if_pos h4, roundToQ_four_thousandth]
          constructor
          · intro _; exact hge
          · intro _; norm_num
        · rw [if_neg h4, roundToQ_four_tenthousandth]
          constructor
          · intro _; exact hge
          · intro _; norm_num

theorem applyOverallImpact_regressions (s : Summary) :
    (applyOverallImpact s).regressions = s.regressions := by
  unfold applyOverallImpact; split <;> try split
  all_goals rfl

theorem applyOverallImpact_improvements (s : Summary) :
    (applyOverallImpact s).improvements = s.improvements := by
  unfold applyOverallImpact; split <;> try split
  all_goals rfl

theorem applyOverallImpact_sig (s : Summary) :
    (applyOverallImpact s).significantChanges = s.significantChanges := by
  unfold applyOverallImpact; split <;> try split
  all_goals rfl

theorem applyStability_regressions (s : Summary) :
    (applyStability s).regressions = s.regressions := by
  unfold applyStability; split <;> try split
  all_goals rfl

theorem applyStability_improvements (s : Summary) :
    (applyStability s).improvements = s.improvements := by
  unfold applyStability; split <;> try split
  all_goals rfl

theorem applyStability_sig (s : Summary) :
    (applyStability s).significantChanges = s.significantChanges := by
  unfold applyStability; split <;> try split
  all_goals rfl

theorem metricFold_mem_regressions {x : SummaryItem} {acc : Summary}
    (scn : String) (e : String × TestResult) (hx : x ∈ acc.regressions) :
    x ∈ (metricFold scn acc e).regressions := by
  simp only [metricFold]
  split
  · split
    · split <;> simp [List.mem_append, hx]
    · simpa using hx
  · simpa using hx

theorem metricFold_mem_improvements {x : SummaryItem} {acc : Summary}
    (scn : String) (e : String × TestResult) (hx : x ∈ acc.improvements) :
    x ∈ (metricFold scn acc e).improvements := by
  simp only [metricFold]
  split
  · split
    · split <;> simp [List.mem_append, hx]
    · simpa using hx
  · simpa using hx

theorem scenarioFold_mem_regressions {x : SummaryItem} {acc : Summary}
    (e : String × List (String × TestResult)) (hx : x ∈ acc.regressions) :
    x ∈ (scenarioFold acc e).regressions := by
  unfold scenarioFold
  exact foldl_pres (P := fun s => x ∈ s.regressions)
    (fun a y hy => metricFold_mem_regressions e.1 y hy) e.2 acc hx

theorem scenarioFold_mem_improvements {x : SummaryItem} {acc : Summary}
    (e : String × List (String × TestResult)) (hx : x ∈ acc.improvements) :
    x ∈ (scenarioFold acc e).improvements := by
  unfold scenarioFold
  exact foldl_pres (P := fun s => x ∈ s.improvements)
    (fun a y hy => metricFold_mem_improvements e.1 y hy) e.2 acc hx

theorem metricFold_trigger_regressions (scn m : String) (r : TestResult)
    (acc : Summary) (hsig : r.significance.isSignificant = true)
    (hp : r.change.percent > 5) :
    SummaryItem.metric scn m r.change.percent ∈ (metricFold scn acc (m, r)).regressions := by
  simp only [metricFold]
  rw [if_pos hsig]
  have habs : |r.change.percent| > 5 := by
    rw [abs_of_pos (by linarith)]; exact hp
  rw [if_pos habs, if_pos (by linarith : r.change.percent > 0)]
  simp

theorem metricFold_trigger_improvements (scn m : String) (r : TestResult)
    (acc : Summary) (hsig : r.significance.isSignificant = true)
    (hp : r.change.percent < -5) :
    SummaryItem.metric scn m r.change.percent ∈ (metricFold scn acc (m, r)).improvements := by
  simp only [metricFold]
  rw [if_pos hsig]
  have habs : |r.change.percent| > 5 := by
    rw [abs_of_neg (by linarith)]; linarith
  rw [if_pos habs, if_neg (by push_neg; linarith : ¬r.change.percent > 0)]
  simp

theorem metricFold_insig (scn : String) (acc : Summary) (e : String × TestResult)
    (h : e.2.significance.isSignificant = false) : metricFold scn acc e = acc := by
  simp only [metricFold]
  rw [if_neg (by simp [h])]

theorem compareCdn_self (x : Option CdnInfo) :
    compareCdn x x = none ∨ compareCdn x x = some Impact.neutral := by
  cases x with
  | none => left; rfl
  | some b =>
    right
    simp only [compareCdn, assessCdnImpact]
    cases hb : b.detected <;> simp

theorem compareCompression_self (x : Option CompressionInfo) :
    compareCompression x x = none ∨ compareCompression x x = some Impact.neutral := by
  cases x with
  | none => left; rfl
  | some b =>
    right
    simp only [compareCompression, assessCompressionImpact]
    split
    · norm_num
    · norm_num

theorem compareProtocols_self (x : Option ProtocolInfo) :
    compareProtocols x x = none ∨ compareProtocols x x = some Impact.neutral := by
  cases x with
  | none => left; rfl
  | some b =>
    right
    simp only [compareProtocols, assessProtocolImpact]
    cases hb : b.http2Support <;> cases hc : b.http3Support <;> simp

theorem compareSecurity_self (x : Option SecurityInfo) :
    compareSecurity x x = none ∨ compareSecurity x x = some Impact.neutral := by
  cases x with
  | none => left; rfl
  | some b =>
    right
    simp only [compareSecurity]
    norm_num

theorem compareCaching_self (x : Option CachingInfo) :
    compareCaching x x = none ∨ compareCaching x x = some Impact.neutral := by
  cases x with
  | none => left; rfl
  | some b =>
    right
    simp only [compareCaching]
    norm_num

theorem infraFold_skip (acc : Summary) (cat : String) (imp : Option Impact)
    (h : imp = none ∨ imp = some Impact.neutral) : infraFold acc (cat, imp) = acc := by
  rcases h with h | h <;> subst h <;> rfl

theorem infraFold_self (ia : Infrastructure) (acc : Summary) :
    (infraEntries (compareInfrastructure ia ia)).foldl infraFold acc = acc := by
  apply foldl_id
  intro x hx a
  simp only [infraEntries, compareInfrastructure, List.mem_cons, List.mem_singleton,
    List.not_mem_nil, or_false] at hx
  rcases hx with h | h | h | h | h <;> subst h
  · exact infraFold_skip a _ _ (compareCdn_self ia.cdn)
  · exact infraFold_skip a _ _ (compareCompression_self ia.compression)
  · exact infraFold_skip a _ _ (compareProtocols_self ia.protocols)
  · exact infraFold_skip a _ _ (compareSecurity_self ia.security)
  · exact infraFold_skip a _ _ (compareCaching_self ia.caching)

theorem compareStatistics_self_mem {L : List (String × StatRecord)}
    {p : String × TestResult} (hp : p ∈ compareStatistics L L) :
    ∃ rec, (p.1, rec) ∈ L ∧ p.2 = performStatisticalTest rec rec := by
  unfold compareStatistics at hp
  rw [mem_foldl_append] at hp
  rcases hp with h | ⟨m, _, hx⟩
  · cases h
  · unfold statPair at hx
    rcases hl : lookupA L m with _ | rec
    · rw [hl] at hx; cases hx
    · rw [hl] at hx
      simp only [List.mem_singleton] at hx
      subst hx
      exact ⟨rec, lookupA_mem hl, rfl⟩

theorem compareScenarios_self_mem {S : List (String × ScenarioData)}
    {e : String × List (String × TestResult)} (he : e ∈ compareScenarios S S) :
    ∃ sc, (e.1, sc) ∈ S ∧ e.2 = compareStatistics sc.statistics sc.statistics := by
  unfold compareScenarios at he
  rw [mem_foldl_append] at he
  rcases he with h | ⟨name, _, hx⟩
  · cases h
  · unfold scenarioEntry at hx
    rcases hl : lookupA S name with _ | sc
    · rw [hl] at hx; cases hx
    · rw [hl] at hx
      simp only [List.mem_singleton] at hx
      subst hx
      exact ⟨sc, lookupA_mem hl, rfl⟩

theorem sorted_getD_le {l : List ℚ} (hs : l.Sorted (· ≤ ·)) {i j : ℕ}
    (hij : i ≤ j) (hj : j < l.length) : l.getD i 0 ≤ l.getD j 0 := by
  have hi : i < l.length := lt_of_le_of_lt hij hj
  rw [List.getD_eq_getElem l 0 hi, List.getD_eq_getElem l 0 hj]
  have h := hs.rel_get_of_le (a := ⟨i, hi⟩) (b := ⟨j, hj⟩) hij
  simpa [List.get_eq_getElem] using h

theorem pIdx_lt (n : ℕ) (q : ℚ) (hn : 0 < n) (hq0 : 0 ≤ q) (hq1 : q < 1) :
    pIdx n q < n := by
  unfold pIdx
  have hfl : ⌊(n : ℚ) * q⌋ < (n : ℤ) := by
    apply Int.floor_lt.mpr
    push_cast
    calc (n : ℚ) * q < (n : ℚ) * 1 :=
          mul_lt_mul_of_pos_left hq1 (by exact_mod_cast hn)
    _ = n := mul_one _
  have h0 : 0 ≤ ⌊(n : ℚ) * q⌋ := Int.floor_nonneg.mpr (by positivity)
  omega

theorem pIdx_mono (n : ℕ) {q q' : ℚ} (h : q ≤ q') : pIdx n q ≤ pIdx n q' := by
  unfold pIdx
  have hmul : (n : ℚ) * q ≤ (n : ℚ) * q' :=
    mul_le_mul_of_nonneg_left h (by positivity)
  have := Int.floor_le_floor hmul
  omega

/-- C4: for every non-empty finite sample sequence, the Descriptive
Statistics Reducer yields a record with `count` equal to the sequence
length and `min ≤ p75 ≤ p90 ≤ p95 ≤ p99 ≤ max`, each percentile drawn
from the ascending-sorted sequence at index `floor(n*q)`. -/
theorem c4_reducer_invariants (values : List ℚ) (h : values ≠ []) :
    ∃ s, calculateStatistics values = some s ∧
      s.count = values.length ∧
      s.min ≤ s.p75 ∧ s.p75 ≤ s.p90 ∧ s.p90 ≤ s.p95 ∧ s.p95 ≤ s.p99 ∧
      s.p99 ≤ s.max ∧
      s.p75 = (values.insertionSort (· ≤ ·)).getD (pIdx values.length (75 / 100)) 0 ∧
      s.p90 = (values.insertionSort (· ≤ ·)).getD (pIdx values.length (90 / 100)) 0 ∧
      s.p95 = (values.insertionSort (· ≤ ·)).getD (pIdx values.length (95 / 100)) 0 ∧
      s.p99 = (values.insertionSort (· ≤ ·)).getD (pIdx values.length (99 / 100)) 0 := by
  have hlen : (values.insertionSort (· ≤ ·)).length = values.length :=
    List.length_insertionSort _ _
  have hsort : (values.insertionSort (· ≤ ·)).Sorted (· ≤ ·) :=
    List.sorted_insertionSort _ _
  have hpos : 0 < values.length := List.length_pos.mpr h
  have h99 : pIdx values.length (99 / 100) < values.length :=
    pIdx_lt _ _ hpos (by norm_num) (by norm_num)
  have h7590 : pIdx values.length (75 / 100) ≤ pIdx values.length (90 / 100) :=
    pIdx_mono _ (by norm_num)
  have h9095 : pIdx values.length (90 / 100) ≤ pIdx values.length (95 / 100) :=
    pIdx_mono _ (by norm_num)
  have h9599 : pIdx values.length (95 / 100) ≤ pIdx values.length (99 / 100) :=
    pIdx_mono _ (by norm_num)
  have h90lt : pIdx values.length (90 / 100) < values.length :=
    lt_of_le_of_lt (le_trans h9095 h9599) h99
  have h95lt : pIdx values.length (95 / 100) < values.length :=
    lt_of_le_of_lt h9599 h99
  have h75lt : pIdx values.length (75 / 100) < values.length :=
    lt_of_le_of_lt h7590 h90lt
  rw [calculateStatistics, if_neg h]
  refine ⟨_, rfl, by simp [hlen], ?_, ?_, ?_, ?_, ?_, ?_, ?_, ?_, ?_⟩
  all_goals simp only [hlen]
  · exact sorted_getD_le hsort (Nat.zero_le _) (hlen ▸ h75lt)
  · exact sorted_getD_le hsort h7590 (hlen ▸ h90lt)
  · exact sorted_getD_le hsort h9095 (hlen ▸ h95lt)
  · exact sorted_getD_le hsort h9599 (hlen ▸ h99)
  · exact sorted_getD_le hsort (by omega) (by rw [hlen]; omega)

/-- C4 witness: the reducer invariants instantiated at the concrete
sequence `[2, 1]`. -/
theorem c4_reducer_invariants_witness :
    ∃ s, calculateStatistics [2, 1] = some s ∧ s.count = 2 ∧ s.min ≤ s.p75 := by
  obtain ⟨s, h1, h2, h3, _⟩ := c4_reducer_invariants [2, 1] (by simp)
  exact ⟨s, h1, by simpa using h2, h3⟩

/-- C10: for every non-empty sample list the percentile rank
`floor(n*q)` used by `calculateStatistics` lies within `[0, n-1]` for
each q ∈ {0.75, 0.90, 0.95, 0.99} even without explicit clamping, and the
reducer is total (returns a record) on non-empty input. -/
theorem c10_percentile_index_in_bounds (values : List ℚ) (h : values ≠ []) :
    (calculateStatistics values).isSome = true ∧
      ∀ q ∈ ([75 / 100, 90 / 100, 95 / 100, 99 / 100] : List ℚ),
        pIdx values.length q < values.length := by
  have hpos : 0 < values.length := List.length_pos.mpr h
  constructor
  · rw [calculateStatistics, if_neg h]; rfl
  · intro q hq
    simp only [List.mem_cons, List.mem_singleton, List.not_mem_nil, or_false] at hq
    rcases hq with h' | h' | h' | h' <;> subst h' <;>
      exact pIdx_lt _ _ hpos (by norm_num) (by norm_num)

/-- C10 witness: bounds at the concrete one-element sequence `[5]`. -/
theorem c10_percentile_index_in_bounds_witness :
    (calculateStatistics [5]).isSome = true ∧ pIdx 1 (99 / 100) < 1 := by
  obtain ⟨h1, h2⟩ := c10_percentile_index_in_bounds [5] (by simp)
  exact ⟨h1, by simpa using h2 (99 / 100) (by norm_num)⟩

/-- C7: the top-level validation score is `100 - 10*issues - 5*warnings`
over the five sub-reports, clamped to `[0, 100]` (the source clamps only
below, but the value never exceeds 100), and the top-level `passed` flag
is the conjunction of the five sub-report flags. -/
theorem c7_aggregate_score_and_passed (e s d i c : SubReport) :
    (aggregateValidationResults e s d i c).score =
      min 100 (max 0 (100 -
        10 * ((e.issues.length + s.issues.length + d.issues.length +
               i.issues.length + c.issues.length : ℕ) : ℤ) -
        5 * ((e.warnings.length + s.warnings.length + d.warnings.length +
              i.warnings.length + c.warnings.length : ℕ) : ℤ))) ∧
    (aggregateValidationResults e s d i c).passed =
      (e.passed && s.passed && d.passed && i.passed && c.passed) := by
  constructor
  · simp only [aggregateValidationResults, List.map_cons, List.map_nil,
      List.sum_cons, List.sum_nil]
    push_cast
    omega
  · simp only [aggregateValidationResults, List.foldl_cons, List.foldl_nil]
    cases e.passed <;> cases s.passed <;> cases d.passed <;>
      cases i.passed <;> cases c.passed <;> rfl

/-- C8: a scenario success rate of exactly 79.9 adds a
`low_success_rate` issue of severity `error` and forces the statistics
sub-report's `passed` to `false`, while exactly 80.0 adds an issue of
severity `warning` and leaves `passed` exactly as it would be with no
success rate at all — the fail boundary is strict `< 80`. -/
theorem c8_success_rate_boundary (ms : List (String × VStats)) (e s : String) :
    (validateStatistics [(e, ⟨[(s, ⟨ms, some (799 / 10)⟩)]⟩)]).passed = false ∧
    (⟨"low_success_rate", Severity.error, 799 / 10⟩ : VIssue) ∈
      (validateStatistics [(e, ⟨[(s, ⟨ms, some (799 / 10)⟩)]⟩)]).issues ∧
    (⟨"low_success_rate", Severity.warning, 80⟩ : VIssue) ∈
      (validateStatistics [(e, ⟨[(s, ⟨ms, some 80⟩)]⟩)]).issues ∧
    (validateStatistics [(e, ⟨[(s, ⟨ms, some 80⟩)]⟩)]).passed =
      (validateStatistics [(e, ⟨[(s, ⟨ms, none⟩)]⟩)]).passed := by
  have h79a : (799 / 10 : ℚ) < 95 := by norm_num
  have h79b : (799 / 10 : ℚ) < 80 := by norm_num
  have h80a : (80 : ℚ) < 95 := by norm_num
  have h80b : ¬((80 : ℚ) < 80) := by norm_num
  simp only [validateStatistics, envCheck, scenCheck, List.foldl_cons, List.foldl_nil]
  rw [if_pos h79a, if_pos h79b, if_pos h80a, if_neg h80b, if_pos h79b, if_neg h80b]
  refine ⟨rfl, by simp, by simp, rfl⟩

/-- C6: with both variances positive and both counts at least 2,
increasing the absolute mean difference while keeping variances and
counts fixed never turns a significant comparison insignificant. -/
theorem c6_significance_monotone
    (s1 s2 n1 n2 cv1 cv2 m1 m2 m1' m2' : ℚ)
    (hs1 : s1 ≠ 0) (hs2 : s2 ≠ 0) (hn1 : 2 ≤ n1) (hn2 : 2 ≤ n2)
    (hmono : |m1 - m2| ≤ |m1' - m2'|)
    (hsig : (performStatisticalTest ⟨m1, s1, n1, cv1⟩
      ⟨m2, s2, n2, cv2⟩).significance.isSignificant = true) :
    (performStatisticalTest ⟨m1', s1, n1, cv1⟩
      ⟨m2', s2, n2, cv2⟩).significance.isSignificant = true := by
  rw [isSig_iff _ _ hs1 hs2 hn1 hn2] at hsig ⊢
  have hsq : (m1 - m2) ^ 2 ≤ (m1' - m2') ^ 2 := by
    have h := pow_le_pow_left₀ (abs_nonneg (m1 - m2)) hmono 2
    rwa [sq_abs, sq_abs] at h
  exact le_trans hsig hsq

/-- C6 witness: the monotonicity instance at concrete records with unit
stddev, count 10; the mean gap grows from 10 to 20. -/
theorem c6_significance_monotone_witness :
    (performStatisticalTest ⟨0, 1, 10, 0⟩
      ⟨20, 1, 10, 0⟩).significance.isSignificant = true :=
  c6_significance_monotone 1 1 10 10 0 0 0 10 0 20
    (by norm_num) (by norm_num) (by norm_num) (by norm_num) (by norm_num)
    (by norm_num [performStatisticalTest, welchTTest, jsDiv, jsAdd, jsPow2,
      absTStat, absTLt, jsLe, calculatePValue, roundToQ, roundToJS,
      Int.floor_eq_iff])

/-- C5: on the concrete pair `{mean:369, stddev:30, count:10}` vs
`{mean:1959, stddev:403, count:10}` the comparator reports a percent
change of 430.89 (+431% before rounding), marks it significant, the
interpretation takes the significant-regression branch, and at the
engine level the metric lands in `summary.regressions`. -/
theorem c5_end_to_end_regression :
    (performStatisticalTest c5Baseline c5Comparison).change.percent = 43089 / 100 ∧
    (performStatisticalTest c5Baseline c5Comparison).significance.isSignificant = true ∧
    (performStatisticalTest c5Baseline c5Comparison).interpretation.summary =
      SummaryKind.sigRegression ∧
    (compareEnvironments
      ⟨none, some [("test", ⟨[("timing.total", c5Baseline)]⟩)]⟩
      ⟨none, some [("test", ⟨[("timing.total", c5Comparison)]⟩)]⟩).summary.regressions =
      [SummaryItem.metric "test" "timing.total" (43089 / 100)] := by
  norm_num [c5Baseline, c5Comparison, compareEnvironments, compareScenarios,
    compareScenarioPair, compareStatistics, statPair, scenarioEntry, lookupA,
    firstDedup, firstDedupAux, generateSummary, scenarioFold, metricFold,
    infraFold, applyOverallImpact, applyStability, performStatisticalTest,
    welchTTest, jsDiv, jsAdd, jsPow2, absTStat, absTLt, jsLe, calculatePValue,
    roundToQ, roundToJS, interpretStatisticalResult, Int.floor_eq_iff,
    abs_of_nonneg]

/-- C1 counterexample: a +50% change (|percent| > 5) that is not
statistically significant is NOT added to `summary.regressions` — the
push in `generateSummary` is nested inside the `isSignificant` guard, so
the claim's "independent of statistical significance" fails at this
input. -/
theorem c1_counterexample :
    (performStatisticalTest c1Baseline c1Comparison).change.percent = 50 ∧
    (performStatisticalTest c1Baseline c1Comparison).significance.isSignificant = false ∧
    (compareEnvironments
      ⟨none, some [("s", ⟨[("m", c1Baseline)]⟩)]⟩
      ⟨none, some [("s", ⟨[("m", c1Comparison)]⟩)]⟩).analysis.scenarios =
      some [("s", [("m", performStatisticalTest c1Baseline c1Comparison)])] ∧
    (compareEnvironments
      ⟨none, some [("s", ⟨[("m", c1Baseline)]⟩)]⟩
      ⟨none, some [("s", ⟨[("m", c1Comparison)]⟩)]⟩).summary.regressions = [] := by
  norm_num [c1Baseline, c1Comparison, compareEnvironments, compareScenarios,
    compareScenarioPair, compareStatistics, statPair, scenarioEntry, lookupA,
    firstDedup, firstDedupAux, generateSummary, scenarioFold, metricFold,
    infraFold, applyOverallImpact, applyStability, performStatisticalTest,
    welchTTest, jsDiv, jsAdd, jsPow2, absTStat, absTLt, jsLe, calculatePValue,
    roundToQ, roundToJS, interpretStatisticalResult, Int.floor_eq_iff,
    abs_of_nonneg]

/-- C1 (amended): a per-metric comparison is added to the run summary's
`regressions` (percent > 5) or `improvements` (percent < -5) only when it
is statistically significant; the significance guard wraps the
magnitude check. -/
theorem c1_significant_large_change_listed (analysis : Analysis)
    (scs : List (String × List (String × TestResult)))
    (scn : String) (stats : List (String × TestResult)) (m : String)
    (r : TestResult)
    (hscs : analysis.scenarios = some scs) (hmem : (scn, stats) ∈ scs)
    (hr : (m, r) ∈ stats) (hsig : r.significance.isSignificant = true) :
    (r.change.percent > 5 →
      SummaryItem.metric scn m r.change.percent ∈
        (generateSummary analysis).regressions) ∧
    (r.change.percent < -5 →
      SummaryItem.metric scn m r.change.percent ∈
        (generateSummary analysis).improvements) := by
  constructor <;> intro hp
  · simp only [generateSummary, hscs]
    rw [applyStability_regressions, applyOverallImpact_regressions]
    refine foldl_trigger (f := scenarioFold)
      (P := fun y => SummaryItem.metric scn m r.change.percent ∈ y.regressions)
      hmem ?_ (fun a x hx => scenarioFold_mem_regressions x hx) _
    intro a
    unfold scenarioFold
    refine foldl_trigger (f := metricFold scn)
      (P := fun y => SummaryItem.metric scn m r.change.percent ∈ y.regressions)
      hr ?_ (fun a' x hx => metricFold_mem_regressions scn x hx) a
    intro a'
    exact metricFold_trigger_regressions scn m r a' hsig hp
  · simp only [generateSummary, hscs]
    rw [applyStability_improvements, applyOverallImpact_improvements]
    refine foldl_trigger (f := scenarioFold)
      (P := fun y => SummaryItem.metric scn m r.change.percent ∈ y.improvements)
      hmem ?_ (fun a x hx => scenarioFold_mem_improvements x hx) _
    intro a
    unfold scenarioFold
    refine foldl_trigger (f := metricFold scn)
      (P := fun y => SummaryItem.metric scn m r.change.percent ∈ y.improvements)
      hr ?_ (fun a' x hx => metricFold_mem_improvements scn x hx) a
    intro a'
    exact metricFold_trigger_improvements scn m r a' hsig hp

/-- C1 witness: a significant +50% metric comparison is listed in
`regressions` for a concrete one-scenario analysis. -/
theorem c1_significant_large_change_listed_witness :
    SummaryItem.metric "s" "m"
      (performStatisticalTest ⟨100, 1, 10, 0⟩ ⟨150, 1, 10, 0⟩).change.percent ∈
      (generateSummary ⟨none,
        some [("s", [("m", performStatisticalTest ⟨100, 1, 10, 0⟩ ⟨150, 1, 10, 0⟩)])]⟩).regressions :=
  (c1_significant_large_change_listed
    ⟨none, some [("s", [("m", performStatisticalTest ⟨100, 1, 10, 0⟩ ⟨150, 1, 10, 0⟩)])]⟩
    [("s", [("m", performStatisticalTest ⟨100, 1, 10, 0⟩ ⟨150, 1, 10, 0⟩)])]
    "s" [("m", performStatisticalTest ⟨100, 1, 10, 0⟩ ⟨150, 1, 10, 0⟩)]
    "m" (performStatisticalTest ⟨100, 1, 10, 0⟩ ⟨150, 1, 10, 0⟩)
    rfl (by simp) (by simp)
    (by norm_num [performStatisticalTest, welchTTest, jsDiv, jsAdd, jsPow2,
      absTStat, absTLt, jsLe, calculatePValue, roundToQ, roundToJS,
      Int.floor_eq_iff])).1
    (by norm_num [performStatisticalTest, welchTTest, jsDiv, jsAdd, jsPow2,
      absTStat, absTLt, jsLe, calculatePValue, roundToQ, roundToJS,
      interpretStatisticalResult, Int.floor_eq_iff])

/-- C3 counterexample: comparing `c3CounterRun` against itself leaves a
0% entry in `significantChanges`, so the claimed
`significantChanges = []` fails (regressions/improvements/overallImpact
still come out empty/neutral). -/
theorem c3_counterexample :
    (compareEnvironments c3CounterRun c3CounterRun).summary.significantChanges =
      [SummaryItem.metric "s" "m" 0] ∧
    (compareEnvironments c3CounterRun c3CounterRun).summary.significantChanges ≠ [] := by
  constructor
  · norm_num [c3CounterRun, compareEnvironments, compareScenarios,
      compareScenarioPair, compareStatistics, statPair, scenarioEntry, lookupA,
      firstDedup, firstDedupAux, generateSummary, scenarioFold, metricFold,
      infraFold, applyOverallImpact, applyStability, performStatisticalTest,
      welchTTest, jsDiv, jsAdd, jsPow2, absTStat, absTLt, jsLe, calculatePValue,
      roundToQ, roundToJS, interpretStatisticalResult, Int.floor_eq_iff,
      abs_of_nonneg]
  · norm_num [c3CounterRun, compareEnvironments, compareScenarios,
      compareScenarioPair, compareStatistics, statPair, scenarioEntry, lookupA,
      firstDedup, firstDedupAux, generateSummary, scenarioFold, metricFold,
      infraFold, applyOverallImpact, applyStability, performStatisticalTest,
      welchTTest, jsDiv, jsAdd, jsPow2, absTStat, absTLt, jsLe, calculatePValue,
      roundToQ, roundToJS, interpretStatisticalResult, Int.floor_eq_iff,
      abs_of_nonneg]

theorem summary_self_base (R : EnvResults)
    (H : ∀ sc ∈ R.scenarios.getD [], ∀ p ∈ sc.2.statistics, p.2.stddev ≠ 0) :
    (compareEnvironments R R).summary =
      { overallImpact := .neutral, significantChanges := [], regressions := [],
        improvements := [], stability := .stable } := by
  have hscen : ∀ scs, R.scenarios = some scs →
      ∀ acc, (compareScenarios scs scs).foldl scenarioFold acc = acc := by
    intro scs hs acc
    apply foldl_id
    intro e he a
    obtain ⟨sc, hscmem, hstats⟩ := compareScenarios_self_mem he
    unfold scenarioFold
    rw [hstats]
    apply foldl_id
    intro p hp a'
    obtain ⟨rec, hrecmem, hr⟩ := compareStatistics_self_mem hp
    apply metricFold_insig
    rw [hr]
    apply perform_self_insignificant
    have := H (e.1, sc) (by rw [hs]; exact hscmem) (p.1, rec) hrecmem
    exact this
  rcases hi : R.infrastructure with _ | i <;> rcases hs : R.scenarios with _ | scs <;>
    simp only [compareEnvironments, hi, hs, generateSummary]
  · rfl
  · rw [hscen scs hs]; rfl
  · rw [infraFold_self]; rfl
  · rw [infraFold_self, hscen scs hs]; rfl

theorem roundToQ_two_zero : roundToQ 2 0 = 0 := by
  rw [roundToQ_eq (n := 0) (by norm_num) (by norm_num)]; norm_num

/-- C2 counterexample: with both samples at zero variance the
Welch-Satterthwaite denominator is `0/0 = NaN`, so `df = NaN` (not 0),
the table fall-through gives `p = 0.0001` (not 1), and the comparison is
marked significant instead of "not significant". -/
theorem c2_counterexample :
    (welchTTest ⟨0, 0, 5, 0⟩ ⟨10, 0, 5, 0⟩).degreesOfFreedom = JSNum.nan ∧
    (welchTTest ⟨0, 0, 5, 0⟩ ⟨10, 0, 5, 0⟩).pValue = 1 / 10000 ∧
    (performStatisticalTest ⟨0, 0, 5, 0⟩ ⟨10, 0, 5, 0⟩).significance.isSignificant = true := by
  norm_num [performStatisticalTest, welchTTest, jsDiv, jsAdd, jsPow2, absTStat,
    absTLt, jsLe, calculatePValue, roundToQ, roundToJS, Int.floor_eq_iff]

theorem welch_df_eq (b c : StatRecord) :
    (welchTTest b c).degreesOfFreedom = roundToJS 2 (jsDiv
      (jsPow2 (jsAdd (jsDiv (.fin (b.stddev * b.stddev)) (.fin b.count))
                     (jsDiv (.fin (c.stddev * c.stddev)) (.fin c.count))))
      (jsAdd
        (jsDiv (jsPow2 (jsDiv (.fin (b.stddev * b.stddev)) (.fin b.count)))
               (.fin (b.count - 1)))
        (jsDiv (jsPow2 (jsDiv (.fin (c.stddev * c.stddev)) (.fin c.count)))
               (.fin (c.count - 1))))) := rfl

theorem denom_term_count_one {v n : ℚ} (hv : 0 < v) (hn : n = 1) :
    jsDiv (jsPow2 (jsDiv (.fin v) (.fin n))) (.fin (n - 1)) = JSNum.inf := by
  subst hn
  have h1 : jsDiv (.fin v) (.fin 1) = .fin (v / 1) := by norm_num [jsDiv]
  rw [h1]
  simp only [jsPow2]
  norm_num [jsDiv]
  rw [if_neg hv.ne', if_pos (show (0 : ℚ) < v ^ 2 by positivity)]

theorem denom_term_fin_or_inf {v n : ℚ} (hv : 0 < v) (hn : 1 ≤ n) :
    (∃ q, jsDiv (jsPow2 (jsDiv (.fin v) (.fin n))) (.fin (n - 1)) = .fin q) ∨
      jsDiv (jsPow2 (jsDiv (.fin v) (.fin n))) (.fin (n - 1)) = JSNum.inf := by
  by_cases h1 : n = 1
  · exact Or.inr (denom_term_count_one hv h1)
  · left
    have hn0 : n ≠ 0 := by intro hc; rw [hc] at hn; norm_num at hn
    have hn1 : n - 1 ≠ 0 := fun hc => h1 (by linarith [sub_eq_zero.mp hc])
    have hd : jsDiv (.fin v) (.fin n) = .fin (v / n) := by simp [jsDiv, hn0]
    rw [hd]
    simp only [jsPow2]
    exact ⟨(v / n) ^ 2 / (n - 1), by simp [jsDiv, hn1]⟩

theorem jsAdd_inf_of_fin_or_inf {x y : JSNum}
    (hx : (∃ q, x = .fin q) ∨ x = JSNum.inf) (hy : (∃ q, y = .fin q) ∨ y = JSNum.inf)
    (h : x = JSNum.inf ∨ y = JSNum.inf) : jsAdd x y = JSNum.inf := by
  rcases hx with ⟨q, rfl⟩ | rfl <;> rcases hy with ⟨q', rfl⟩ | rfl <;>
    simp_all [jsAdd]

/-- C2 (amended): when either sample has count 1, both counts are at
least 1 and both stddevs are nonzero, the t-test reports
`degreesOfFreedom = 0` and `pValue = 1` and the comparison is not
significant (and, being a total function, raises nothing).  The claim's
zero-variance clause is dropped: it is refuted by `c2_counterexample`. -/
theorem c2_degenerate_count_one (b c : StatRecord)
    (hb : b.stddev ≠ 0) (hc : c.stddev ≠ 0)
    (h1b : 1 ≤ b.count) (h1c : 1 ≤ c.count)
    (hone : b.count = 1 ∨ c.count = 1) :
    (welchTTest b c).degreesOfFreedom = .fin 0 ∧
    (welchTTest b c).pValue = 1 ∧
    (performStatisticalTest b c).significance.isSignificant = false := by
  have hvarb : 0 < b.stddev * b.stddev := mul_self_pos.mpr hb
  have hvarc : 0 < c.stddev * c.stddev := mul_self_pos.mpr hc
  have hnb0 : b.count ≠ 0 := by intro hc'; rw [hc'] at h1b; norm_num at h1b
  have hnc0 : c.count ≠ 0 := by intro hc'; rw [hc'] at h1c; norm_num at h1c
  have hdivb : jsDiv (.fin (b.stddev * b.stddev)) (.fin b.count) =
      .fin (b.stddev * b.stddev / b.count) := by simp [jsDiv, hnb0]
  have hdivc : jsDiv (.fin (c.stddev * c.stddev)) (.fin c.count) =
      .fin (c.stddev * c.stddev / c.count) := by simp [jsDiv, hnc0]
  have hden : jsAdd
      (jsDiv (jsPow2 (jsDiv (.fin (b.stddev * b.stddev)) (.fin b.count)))
             (.fin (b.count - 1)))
      (jsDiv (jsPow2 (jsDiv (.fin (c.stddev * c.stddev)) (.fin c.count)))
             (.fin (c.count - 1))) = JSNum.inf := by
    apply jsAdd_inf_of_fin_or_inf
      (denom_term_fin_or_inf hvarb h1b) (denom_term_fin_or_inf hvarc h1c)
    rcases hone with h | h
    · exact Or.inl (denom_term_count_one hvarb h)
    · exact Or.inr (denom_term_count_one hvarc h)
  have hdf0 : jsDiv
      (jsPow2 (jsAdd (jsDiv (.fin (b.stddev * b.stddev)) (.fin b.count))
                     (jsDiv (.fin (c.stddev * c.stddev)) (.fin c.count))))
      (jsAdd
        (jsDiv (jsPow2 (jsDiv (.fin (b.stddev * b.stddev)) (.fin b.count)))
               (.fin (b.count - 1)))
        (jsDiv (jsPow2 (jsDiv (.fin (c.stddev * c.stddev)) (.fin c.count)))
               (.fin (c.count - 1)))) = .fin 0 := by
    rw [hden, hdivb, hdivc]
    simp only [jsAdd, jsPow2, jsDiv]
  have hp1 : (welchTTest b c).pValue = 1 := by
    rw [welch_pValue_eq, hdf0]
    unfold calculatePValue
    rw [if_pos (by norm_num [jsLe])]
    exact roundToQ_four_one
  refine ⟨?_, hp1, ?_⟩
  · rw [welch_df_eq, hdf0]
    simp only [roundToJS]
    rw [roundToQ_two_zero]
  · rw [isSignificant_eq, hp1]
    norm_num

/-- C2 witness: the amended degenerate behaviour at the concrete pair
count-1/count-4 with positive variances. -/
theorem c2_degenerate_count_one_witness :
    (welchTTest ⟨5, 2, 1, 0⟩ ⟨7, 3, 4, 0⟩).degreesOfFreedom = .fin 0 ∧
    (welchTTest ⟨5, 2, 1, 0⟩ ⟨7, 3, 4, 0⟩).pValue = 1 ∧
    (performStatisticalTest ⟨5, 2, 1, 0⟩ ⟨7, 3, 4, 0⟩).significance.isSignificant = false :=
  c2_degenerate_count_one ⟨5, 2, 1, 0⟩ ⟨7, 3, 4, 0⟩
    (by norm_num) (by norm_num) (by norm_num) (by norm_num) (Or.inl rfl)

theorem lookupD_pushSample (r : List (String × List JSNum)) (key p : String)
    (v : JSNum) :
    lookupD (pushSample r key v) p =
      if p = key then lookupD r p ++ [v] else lookupD r p := by
  induction r with
  | nil =>
    simp only [pushSample, lookupD]
    by_cases h : key = p
    · subst h; simp
    · rw [if_neg h, if_neg (fun hc => h hc.symm)]
  | cons hd tl ih =>
    obtain ⟨k, l⟩ := hd
    simp only [pushSample]
    by_cases hk : k = key
    · subst hk
      simp only [if_pos rfl, lookupD]
      by_cases hp : k = p
      · subst hp; simp
      · rw [if_neg hp, if_neg hp, if_neg (fun hc => hp hc.symm)]
    · rw [if_neg hk]
      simp only [lookupD]
      by_cases hp : k = p
      · subst hp
        rw [if_pos rfl, if_pos rfl, if_neg (fun hc => hk hc)]
      · rw [if_neg hp, if_neg hp, ih]

theorem lookupD_pushSample_extends (r : List (String × List JSNum))
    (key p : String) (v : JSNum) :
    lookupD r p <+: lookupD (pushSample r key v) p := by
  rw [lookupD_pushSample]
  by_cases h : p = key
  · rw [if_pos h]; exact ⟨[v], rfl⟩
  · rw [if_neg h]

theorem flatten_extends (obj : List (String × JVal))
    (result : List (String × List JSNum)) (pre : String) :
    ∀ p, lookupD result p <+: lookupD (flattenObject obj result pre) p := by
  induction obj, result, pre using flattenObject.induct with
  | case1 result pre =>
    intro p
    simp only [flattenObject]
    exact List.prefix_refl _
  | case2 k x rest result pre ih =>
    intro p
    simp only [flattenObject]
    by_cases h : jsIsNaN x = true
    · rw [if_pos h]
      simp only [dif_pos h] at ih
      exact ih p
    · rw [if_neg h]
      simp only [dif_neg h] at ih
      exact List.IsPrefix.trans (lookupD_pushSample_extends _ _ _ _) (ih p)
  | case3 k fields rest result pre ih1 ih2 =>
    intro p
    simp only [flattenObject]
    exact List.IsPrefix.trans (ih1 p) (ih2 p)
  | case4 k s rest result pre ih =>
    intro p
    simp only [flattenObject]
    exact ih p
  | case5 k b rest result pre ih =>
    intro p
    simp only [flattenObject]
    exact ih p
  | case6 k rest result pre ih =>
    intro p
    simp only [flattenObject]
    exact ih p
  | case7 k es rest result pre ih =>
    intro p
    simp only [flattenObject]
    exact ih p

theorem pushSample_no_nan {r : List (String × List JSNum)} {key : String}
    {v : JSNum} (hr : ∀ q l, (q, l) ∈ r → JSNum.nan ∉ l) (hv : v ≠ JSNum.nan) :
    ∀ q l, (q, l) ∈ pushSample r key v → JSNum.nan ∉ l := by
  induction r with
  | nil =>
    intro q l hm
    simp only [pushSample, List.mem_singleton, Prod.mk.injEq] at hm
    obtain ⟨rfl, rfl⟩ := hm
    simp [Ne.symm hv]
  | cons hd tl ih =>
    obtain ⟨k, l0⟩ := hd
    intro q l hm
    simp only [pushSample] at hm
    by_cases hk : k = key
    · rw [if_pos hk] at hm
      rcases List.mem_cons.mp hm with h | h
      · simp only [Prod.mk.injEq] at h
        obtain ⟨hq, hl⟩ := h
        rw [hl]
        have h0 : JSNum.nan ∉ l0 := hr k l0 (List.mem_cons_self _ _)
        simp only [List.mem_append, List.mem_singleton]
        rintro (hc | hc)
        · exact h0 hc
        · exact hv hc.symm
      · exact hr q l (List.mem_cons_of_mem _ h)
    · rw [if_neg hk] at hm
      rcases List.mem_cons.mp hm with h | h
      · simp only [Prod.mk.injEq] at h
        obtain ⟨hq, hl⟩ := h
        rw [hl]
        exact hr k l0 (List.mem_cons_self _ _)
      · exact ih (fun q' l' hm' => hr q' l' (List.mem_cons_of_mem _ hm')) q l h

theorem flatten_no_nan (obj : List (String × JVal))
    (result : List (String × List JSNum)) (pre : String) :
    (∀ q l, (q, l) ∈ result → JSNum.nan ∉ l) →
      ∀ q l, (q, l) ∈ flattenObject obj result pre → JSNum.nan ∉ l := by
  induction obj, result, pre using flattenObject.induct with
  | case1 result pre =>
    intro hr
    simpa only [flattenObject] using hr
  | case2 k x rest result pre ih =>
    intro hr
    simp only [flattenObject]
    by_cases h : jsIsNaN x = true
    · rw [if_pos h]
      simp only [dif_pos h] at ih
      exact ih hr
    · rw [if_neg h]
      simp only [dif_neg h] at ih
      refine ih (pushSample_no_nan hr ?_)
      intro hc
      subst hc
      exact h rfl
  | case3 k fields rest result pre ih1 ih2 =>
    intro hr
    simp only [flattenObject]
    exact ih2 (ih1 hr)
  | case4 k s rest result pre ih =>
    intro hr
    simp only [flattenObject]
    exact ih hr
  | case5 k b rest result pre ih =>
    intro hr
    simp only [flattenObject]
    exact ih hr
  | case6 k rest result pre ih =>
    intro hr
    simp only [flattenObject]
    exact ih hr
  | case7 k es rest result pre ih =>
    intro hr
    simp only [flattenObject]
    exact ih hr

/-- C9 counterexample: the extractor's filter is `!isNaN(value)`, so the
non-finite leaf `Infinity` IS appended to its metric path's sequence,
refuting "non-finite numeric leaves are never appended". -/
theorem c9_counterexample :
    flattenObject [("a", JVal.num JSNum.inf)] [] "" = [("a", [JSNum.inf])] := by
  simp [flattenObject, pushSample, joinKey, jsIsNaN]

/-- C9 (amended): a numeric leaf is appended to its dot-joined path iff
it is not `NaN` (`Infinity` and `-Infinity` are appended); `NaN` is never
appended (and never enters any sequence), and repeated invocation only
extends each path's sequence at the end, preserving insertion order. -/
theorem c9_flatten_appends_non_nan :
    (∀ (pre k : String) (x : JSNum) (result : List (String × List JSNum)),
      jsIsNaN x = false →
        flattenObject [(k, JVal.num x)] result pre =
          pushSample result (joinKey pre k) x) ∧
    (∀ (pre k : String) (result : List (String × List JSNum)),
      flattenObject [(k, JVal.num JSNum.nan)] result pre = result) ∧
    (∀ (obj : List (String × JVal)) (result : List (String × List JSNum))
      (pre p : String),
      lookupD result p <+: lookupD (flattenObject obj result pre) p) ∧
    (∀ (obj : List (String × JVal)) (result : List (String × List JSNum))
      (pre : String),
      (∀ q l, (q, l) ∈ result → JSNum.nan ∉ l) →
        ∀ q l, (q, l) ∈ flattenObject obj result pre → JSNum.nan ∉ l) := by
  refine ⟨?_, ?_, ?_, ?_⟩
  · intro pre k x result hx
    simp [flattenObject, hx]
  · intro pre k result
    simp [flattenObject, jsIsNaN]
  · intro obj result pre p
    exact flatten_extends obj result pre p
  · intro obj result pre hr
    exact flatten_no_nan obj result pre hr

/-- C9 witness: the amended behaviour at concrete inputs — a finite leaf
is appended, a NaN leaf is skipped, and an existing sequence is a prefix
of the extended one. -/
theorem c9_flatten_appends_non_nan_witness :
    flattenObject [("a", JVal.num (JSNum.fin 3))] [] "t" =
      pushSample [] (joinKey "t" "a") (JSNum.fin 3) ∧
    flattenObject [("a", JVal.num JSNum.nan)] [("b", [JSNum.fin 1])] "" =
      [("b", [JSNum.fin 1])] ∧
    lookupD [("b", [JSNum.fin 1])] "b" <+:
      lookupD (flattenObject [("b", JVal.num (JSNum.fin 2))] [("b", [JSNum.fin 1])] "") "b" ∧
    ∀ q l, (q, l) ∈ flattenObject [("c", JVal.num JSNum.nan)] [] "" → JSNum.nan ∉ l :=
  ⟨c9_flatten_appends_non_nan.1 "t" "a" (JSNum.fin 3) [] rfl,
   c9_flatten_appends_non_nan.2.1 "" "a" [("b", [JSNum.fin 1])],
   c9_flatten_appends_non_nan.2.2.1 [("b", JVal.num (JSNum.fin 2))]
     [("b", [JSNum.fin 1])] "" "b",
   c9_flatten_appends_non_nan.2.2.2 [("c", JVal.num JSNum.nan)] [] ""
     (by intro q l hm; cases hm)⟩

theorem foldl_proj_eq {α β γ : Type*} {f : β → α → β} {g : β → γ} {l : List α}
    (h : ∀ x ∈ l, ∀ a, g (f a x) = g a) : ∀ acc, g (l.foldl f acc) = g acc := by
  induction l with
  | nil => intro acc; rfl
  | cons x xs ih =>
    intro acc
    rw [List.foldl_cons,
      ih (fun y hy a => h y (List.mem_cons_of_mem x hy) a) (f acc x)]
    exact h x (List.mem_cons_self x xs) acc

theorem perform_self_percent (r : StatRecord) :
    (performStatisticalTest r r).change.percent = 0 := by
  have hkey : (performStatisticalTest r r).change.percent =
      roundToQ 2 (if r.mean > 0 then (r.mean - r.mean) / r.mean * 100 else 0) := rfl
  rw [hkey]
  have hz : (if r.mean > 0 then (r.mean - r.mean) / r.mean * 100 else 0) = 0 := by
    split <;> simp
  rw [hz, roundToQ_two_zero]

theorem metricFold_zero_regressions (scn : String) (acc : Summary)
    (e : String × TestResult) (h : e.2.change.percent = 0) :
    (metricFold scn acc e).regressions = acc.regressions := by
  simp only [metricFold, h]
  split
  · rw [if_neg (by norm_num)]
  · rfl

theorem metricFold_zero_improvements (scn : String) (acc : Summary)
    (e : String × TestResult) (h : e.2.change.percent = 0) :
    (metricFold scn acc e).improvements = acc.improvements := by
  simp only [metricFold, h]
  split
  · rw [if_neg (by norm_num)]
  · rfl

theorem metricFold_overall (scn : String) (acc : Summary)
    (e : String × TestResult) :
    (metricFold scn acc e).overallImpact = acc.overallImpact := by
  simp only [metricFold]
  split
  · split
    · split <;> rfl
    · rfl
  · rfl

theorem scenarioFold_overall (e : String × List (String × TestResult))
    (a : Summary) : (scenarioFold a e).overallImpact = a.overallImpact := by
  unfold scenarioFold
  exact foldl_proj_eq (g := Summary.overallImpact)
    (fun p hp a' => metricFold_overall e.1 a' p) a

theorem scenarioFold_self_regressions {S : List (String × ScenarioData)}
    {e : String × List (String × TestResult)} (he : e ∈ compareScenarios S S)
    (a : Summary) : (scenarioFold a e).regressions = a.regressions := by
  obtain ⟨sc, _, hstats⟩ := compareScenarios_self_mem he
  unfold scenarioFold
  rw [hstats]
  refine foldl_proj_eq (g := Summary.regressions) ?_ a
  intro p hp a'
  obtain ⟨rec, _, hr⟩ := compareStatistics_self_mem hp
  exact metricFold_zero_regressions e.1 a' p (by rw [hr]; exact perform_self_percent rec)

theorem scenarioFold_self_improvements {S : List (String × ScenarioData)}
    {e : String × List (String × TestResult)} (he : e ∈ compareScenarios S S)
    (a : Summary) : (scenarioFold a e).improvements = a.improvements := by
  obtain ⟨sc, _, hstats⟩ := compareScenarios_self_mem he
  unfold scenarioFold
  rw [hstats]
  refine foldl_proj_eq (g := Summary.improvements) ?_ a
  intro p hp a'
  obtain ⟨rec, _, hr⟩ := compareStatistics_self_mem hp
  exact metricFold_zero_improvements e.1 a' p (by rw [hr]; exact perform_self_percent rec)

theorem applyOverallImpact_overall_of_eq {s : Summary}
    (h : s.regressions.length = s.improvements.length) :
    (applyOverallImpact s).overallImpact = s.overallImpact := by
  unfold applyOverallImpact
  rw [h, if_neg (lt_irrefl _), if_neg (lt_irrefl _)]

theorem applyStability_overall (s : Summary) :
    (applyStability s).overallImpact = s.overallImpact := by
  unfold applyStability; split <;> try split
  all_goals rfl

/-- C3 (amended): comparing any result set against itself always yields
`overallImpact = neutral`, `regressions = []` and `improvements = []`
(every self-comparison has `percent = 0`, so no magnitude push fires);
`significantChanges = []` additionally requires every metric record to
have nonzero stddev (a zero-stddev metric's degenerate t-test reports
p = 0.0001 and is listed with a 0% change). -/
theorem c3_identical_run_neutral (R : EnvResults) :
    (compareEnvironments R R).summary.overallImpact = OverallImpact.neutral ∧
    (compareEnvironments R R).summary.regressions = [] ∧
    (compareEnvironments R R).summary.improvements = [] ∧
    ((∀ sc ∈ R.scenarios.getD [], ∀ p ∈ sc.2.statistics, p.2.stddev ≠ 0) →
      (compareEnvironments R R).summary.significantChanges = []) := by
  have huncond : (compareEnvironments R R).summary.regressions = [] ∧
      (compareEnvironments R R).summary.improvements = [] ∧
      (compareEnvironments R R).summary.overallImpact = OverallImpact.neutral := by
    rcases hi : R.infrastructure with _ | i <;>
      rcases hs : R.scenarios with _ | scs <;>
      simp only [compareEnvironments, hi, hs, generateSummary]
    · exact ⟨rfl, rfl, rfl⟩
    · have hr := foldl_proj_eq (f := scenarioFold) (g := Summary.regressions)
        (l := compareScenarios scs scs)
        (fun e he a => scenarioFold_self_regressions he a)
        ⟨.neutral, [], [], [], .stable⟩
      have hv := foldl_proj_eq (f := scenarioFold) (g := Summary.improvements)
        (l := compareScenarios scs scs)
        (fun e he a => scenarioFold_self_improvements he a)
        ⟨.neutral, [], [], [], .stable⟩
      have ho := foldl_proj_eq (f := scenarioFold) (g := Summary.overallImpact)
        (l := compareScenarios scs scs)
        (fun e he a => scenarioFold_overall e a)
        ⟨.neutral, [], [], [], .stable⟩
      refine ⟨?_, ?_, ?_⟩
      · rw [applyStability_regressions, applyOverallImpact_regressions, hr]
      · rw [applyStability_improvements, applyOverallImpact_improvements, hv]
      · rw [applyStability_overall, applyOverallImpact_overall_of_eq (by rw [hr, hv]),
          ho]
    · rw [infraFold_self]
      exact ⟨rfl, rfl, rfl⟩
    · rw [infraFold_self]
      have hr := foldl_proj_eq (f := scenarioFold) (g := Summary.regressions)
        (l := compareScenarios scs scs)
        (fun e he a => scenarioFold_self_regressions he a)
        ⟨.neutral, [], [], [], .stable⟩
      have hv := foldl_proj_eq (f := scenarioFold) (g := Summary.improvements)
        (l := compareScenarios scs scs)
        (fun e he a => scenarioFold_self_improvements he a)
        ⟨.neutral, [], [], [], .stable⟩
      have ho := foldl_proj_eq (f := scenarioFold) (g := Summary.overallImpact)
        (l := compareScenarios scs scs)
        (fun e he a => scenarioFold_overall e a)
        ⟨.neutral, [], [], [], .stable⟩
      refine ⟨?_, ?_, ?_⟩
      · rw [applyStability_regressions, applyOverallImpact_regressions, hr]
      · rw [applyStability_improvements, applyOverallImpact_improvements, hv]
      · rw [applyStability_overall, applyOverallImpact_overall_of_eq (by rw [hr, hv]),
          ho]
  exact ⟨huncond.2.2, huncond.1, huncond.2.1,
    fun H => by rw [summary_self_base R H]⟩

/-- C3 witness: the amended theorem at a concrete one-metric run with
nonzero stddev, discharging the nonzero-stddev hypothesis of the
`significantChanges` clause. -/
theorem c3_identical_run_neutral_witness :
    (compareEnvironments ⟨none, some [("s", ⟨[("m", ⟨100, 3, 10, 0⟩)]⟩)]⟩
      ⟨none, some [("s", ⟨[("m", ⟨100, 3, 10, 0⟩)]⟩)]⟩).summary.overallImpact =
      OverallImpact.neutral ∧
    (compareEnvironments ⟨none, some [("s", ⟨[("m", ⟨100, 3, 10, 0⟩)]⟩)]⟩
      ⟨none, some [("s", ⟨[("m", ⟨100, 3, 10, 0⟩)]⟩)]⟩).summary.regressions = [] ∧
    (compareEnvironments ⟨none, some [("s", ⟨[("m", ⟨100, 3, 10, 0⟩)]⟩)]⟩
      ⟨none, some [("s", ⟨[("m", ⟨100, 3, 10, 0⟩)]⟩)]⟩).summary.significantChanges = [] := by
  obtain ⟨h1, h2, _, h4⟩ := c3_identical_run_neutral
    ⟨none, some [("s", ⟨[("m", ⟨100, 3, 10, 0⟩)]⟩)]⟩
  refine ⟨h1, h2, h4 ?_⟩
  intro sc hsc p hp
  simp only [Option.getD_some, List.mem_singleton] at hsc
  subst hsc
  simp only [List.mem_singleton] at hp
  subst hp
  norm_num
